import Mathlib

/-
  Verification development for the AsterDEX trading bot repository.

  The TypeScript sources are embedded shallowly:
  * JavaScript numbers are modelled as rationals (ℚ); timestamps as integers (ℤ).
  * `number | null` fields become `Option ℚ`.
  * Division is the Lean total division on ℚ (x / 0 = 0); every theorem that
    depends on a quotient carries the hypotheses that keep the source code away
    from NaN/Infinity paths, or is guarded exactly as the source guards it.
  * Mutable class instances become state structures with pure step functions.
  * External collaborators (the execution adapter, the REST poller payloads,
    loggers) appear as explicit inputs/outputs of the step functions.
-/

namespace AsterBot

/-- Position side, as in `src/lib/types.ts` (`PositionSide`). -/
inductive Side where
  | long
  | short
  | flat
deriving DecidableEq, Repr

/-- Direction of a strategy signal or an order (`"long" | "short"`). -/
inductive Dir where
  | long
  | short
deriving DecidableEq, Repr

/-- `Dir` viewed as a position side. -/
def Dir.toSide : Dir → Side
  | .long => .long
  | .short => .short

/-- `SyntheticBar` from `src/lib/types.ts`. (`open` is a Lean keyword, so the
open price is called `openPrice`.) -/
structure SyntheticBar where
  startTime : ℤ
  endTime : ℤ
  openPrice : ℚ
  high : ℚ
  low : ℚ
  close : ℚ
  volume : ℚ
deriving DecidableEq, Repr

/-- JavaScript `a > b` where `a : number | null` (`null > b` is `false`). -/
def jsGt (a : Option ℚ) (b : ℚ) : Bool :=
  match a with
  | some v => decide (b < v)
  | none => false

/-- JavaScript `a < b` where `a : number | null` (`null < b` is `false`). -/
def jsLt (a : Option ℚ) (b : ℚ) : Bool :=
  match a with
  | some v => decide (v < b)
  | none => false

/-- JavaScript `x || d` for `x : number | null | undefined` and a default `d`:
`0` and `null` are falsy. -/
def jsOrQ (x : Option ℚ) (d : ℚ) : ℚ :=
  match x with
  | some v => if v = 0 then d else v
  | none => d

/-- JavaScript `x || d` on integer timestamps (`0` and `null` are falsy). -/
def jsOrZ (x : Option ℤ) (d : ℤ) : ℤ :=
  match x with
  | some v => if v = 0 then d else v
  | none => d

/-! ## ADX (`src/lib/indicators/adx.ts`)

The class keeps rolling windows for TR/+DM/−DM, the list of seed DX values,
the previous bar and previous smoothed values, the current ADX value and an
update counter.  `update` is a direct transcription of the source method. -/
/-- Mutable state of the `ADX` class. -/
structure ADX where
  length : ℕ
  trValues : List ℚ
  plusDMValues : List ℚ
  minusDMValues : List ℚ
  dxValues : List ℚ
  prevHigh : Option ℚ
  prevLow : Option ℚ
  prevClose : Option ℚ
  prevATR : Option ℚ
  prevPlusDI : Option ℚ
  prevMinusDI : Option ℚ
  adxValue : Option ℚ
  updateCount : ℕ
deriving DecidableEq, Repr

/-- The freshly constructed `ADX(length)` (the constructor requires
`length ≥ 2`, which theorems carry as a hypothesis). -/
def ADX.init (length : ℕ) : ADX :=
  ⟨length, [], [], [], [], none, none, none, none, none, none, none, 0⟩

/-- `array.push(x)` followed by `if (array.length > cap) array.shift()`. -/
def pushWindow (xs : List ℚ) (x : ℚ) (cap : ℕ) : List ℚ :=
  let ys := xs ++ [x]
  if cap < ys.length then ys.tail else ys

/-- `+DM` of `ADX.update`:
`(high > prevHigh && low > prevLow) ? Math.max(high - prevHigh, 0) : 0`. -/
def plusDMcalc (high low ph pl : ℚ) : ℚ :=
  if ph < high ∧ pl < low then max (high - ph) 0 else 0

/-- `−DM` of `ADX.update`:
`(prevHigh > high && prevLow > low) ? Math.max(prevLow - low, 0) : 0`. -/
def minusDMcalc (high low ph pl : ℚ) : ℚ :=
  if high < ph ∧ low < pl then max (pl - low) 0 else 0

/-- True range `max(high-low, |high-prevClose|, |low-prevClose|)`. -/
def trueRange (high low pc : ℚ) : ℚ :=
  max (high - low) (max |high - pc| |low - pc|)

/-- The part of every non-first `ADX.update` call that runs unconditionally:
increment the counter, push the TR/+DM/−DM windows, store the new previous
bar. -/
def ADX.base (s : ADX) (high low close tr plusDM minusDM : ℚ) : ADX :=
  { s with updateCount := s.updateCount + 1,
           trValues := pushWindow s.trValues tr s.length,
           plusDMValues := pushWindow s.plusDMValues plusDM s.length,
           minusDMValues := pushWindow s.minusDMValues minusDM s.length,
           prevHigh := some high, prevLow := some low, prevClose := some close }

/-- The `(atr, plusDI, minusDI)` computation of `ADX.update`: a simple-average
seed on the call with `updateCount == length + 1`, Wilder smoothing afterwards.
`trW`/`pW`/`mW` are the windows after this call's push. -/
def ADX.diCalc (s : ADX) (tr plusDM minusDM : ℚ) (trW pW mW : List ℚ) : ℚ × ℚ × ℚ :=
  if s.updateCount + 1 = s.length + 1 then
    let atr := trW.sum / (s.length : ℚ)
    (atr, pW.sum / (s.length : ℚ) / atr * 100, mW.sum / (s.length : ℚ) / atr * 100)
  else
    let alpha : ℚ := 1 / (s.length : ℚ)
    let atr := s.prevATR.getD 0 * (1 - alpha) + tr * alpha
    (atr,
     (s.prevPlusDI.getD 0 / 100 * s.prevATR.getD 0 * (1 - alpha) + plusDM * alpha) / atr * 100,
     (s.prevMinusDI.getD 0 / 100 * s.prevATR.getD 0 * (1 - alpha) + minusDM * alpha) / atr * 100)

/-- The DX bookkeeping of `ADX.update` once a DX value is available: on the
seed call the DX is pushed without touching `adxValue`; afterwards, while
`adxValue` is null, DX values accumulate until `length` of them produce the
first average; once non-null, Wilder smoothing. Returns the new
`(dxValues, adxValue)`. -/
def ADX.dxApply (s : ADX) (dx : ℚ) : List ℚ × Option ℚ :=
  if s.updateCount + 1 = s.length + 1 then (s.dxValues ++ [dx], s.adxValue)
  else
    match s.adxValue with
    | none =>
      if s.length ≤ (s.dxValues ++ [dx]).length then
        (s.dxValues ++ [dx],
         some ((s.dxValues ++ [dx]).sum / (((s.dxValues ++ [dx]).length : ℕ) : ℚ)))
      else (s.dxValues ++ [dx], none)
    | some a =>
      (s.dxValues,
       some (a * (1 - 1 / (s.length : ℚ)) + dx * (1 / (s.length : ℚ))))

/-- The tail of `ADX.update` from the DI computation on: on a zero DI sum the
method returns early (with `b`, the state after the unconditional bookkeeping),
otherwise DX is computed and applied and the smoothed values are stored. -/
def ADX.diFinish (s b : ADX) (di : ℚ × ℚ × ℚ) : ADX :=
  if di.2.1 + di.2.2 = 0 then b
  else
    let push := s.dxApply (|di.2.1 - di.2.2| / (di.2.1 + di.2.2) * 100)
    { b with dxValues := push.1, adxValue := push.2,
             prevATR := some di.1, prevPlusDI := some di.2.1, prevMinusDI := some di.2.2 }

/-- One call of `ADX.update(high, low, close)`; returns the new state (the
source's return value is the `adxValue` field of that state). -/
def ADX.update (s : ADX) (high low close : ℚ) : ADX :=
  match s.prevHigh, s.prevLow, s.prevClose with
  | some ph, some pl, some pc =>
    if s.updateCount + 1 < s.length + 1 then
      s.base high low close (trueRange high low pc) (plusDMcalc high low ph pl)
        (minusDMcalc high low ph pl)
    else
      ADX.diFinish s
        (s.base high low close (trueRange high low pc) (plusDMcalc high low ph pl)
          (minusDMcalc high low ph pl))
        (s.diCalc (trueRange high low pc) (plusDMcalc high low ph pl) (minusDMcalc high low ph pl)
          (pushWindow s.trValues (trueRange high low pc) s.length)
          (pushWindow s.plusDMValues (plusDMcalc high low ph pl) s.length)
          (pushWindow s.minusDMValues (minusDMcalc high low ph pl) s.length))
  | _, _, _ =>
    { s with prevHigh := some high, prevLow := some low, prevClose := some close }

/-- `adx.isTrending(threshold)`: `adx != null && adx > threshold`. -/
def ADX.isTrending (s : ADX) (threshold : ℚ) : Bool :=
  jsGt s.adxValue threshold

/-- `adx.isReady`: `adxValue !== null`. -/
def ADX.isReady (s : ADX) : Bool :=
  s.adxValue.isSome

/-- Feeding a list of `(high, low, close)` bars to a fresh `ADX(length)`. -/
def ADX.runList (length : ℕ) (bars : List (ℚ × ℚ × ℚ)) : ADX :=
  bars.foldl (fun s b => s.update b.1 b.2.1 b.2.2) (ADX.init length)

/-- `adx.value` getter. -/
def ADX.value (s : ADX) : Option ℚ := s.adxValue

/-- The counting invariant behind the warm-up bound: the DX list has at most
`updateCount − length` entries, and a non-null ADX value needs
`updateCount ≥ 2·length`. -/
def ADX.CountInv (s : ADX) : Prop :=
  s.dxValues.length ≤ s.updateCount - s.length ∧
    (s.adxValue ≠ none → 2 * s.length ≤ s.updateCount)

/-- One state-machine step of the `ADX.runList` fold. -/
def adxStep (s : ADX) (b : ℚ × ℚ × ℚ) : ADX := s.update b.1 b.2.1 b.2.2

/-! ## Position state reconciliation (`src/lib/state/positionState.ts`)

`PositionStateManager` holds a local optimistic view and a failure counter;
`updateFromRest` reconciles an authoritative REST report against the local
view.  The REST payload strings are modelled by their parsed numeric values
(`parseFloat(...) || 0` is the identity on a well-formed numeric payload). -/
/-- A pending order marker on the local state. -/
structure PendingOrder where
  side : Dir
  size : ℚ
  timestamp : ℤ
deriving DecidableEq, Repr

/-- `LocalPositionState`. -/
structure LocalPositionState where
  size : ℚ
  side : Side
  avgEntry : ℚ
  unrealizedPnl : ℚ
  lastUpdate : ℤ
  pendingOrder : Option PendingOrder
deriving DecidableEq, Repr

/-- Mutable state of `PositionStateManager`. -/
structure PositionStateManager where
  state : LocalPositionState
  reconciliationFailures : ℕ
deriving DecidableEq, Repr

/-- `maxReconciliationFailures` (the fixed threshold). -/
def maxReconciliationFailures : ℕ := 2

/-- The normalized four-field views compared by `reconcile`. -/
structure NormalizedView where
  size : ℚ
  side : Side
  avgEntry : ℚ
  unrealizedPnl : ℚ
deriving DecidableEq, Repr

/-- `PositionStateManager.reconcile`: size within an absolute tolerance, exact
side match, and (when both sides are non-flat and the REST entry is non-zero)
entry within a 1% relative tolerance. -/
def PositionStateManager.reconcile (rest local_ : NormalizedView) : Bool :=
  let sizeMatch := decide (|rest.size - local_.size| < 1 / 10000)
  let sideMatch := decide (rest.side = local_.side)
  if rest.side = .flat ∧ local_.side = .flat then
    sizeMatch && sideMatch
  else
    let entryMatch :=
      decide (rest.avgEntry = 0) || decide (|rest.avgEntry - local_.avgEntry| / rest.avgEntry < 1 / 100)
    sizeMatch && sideMatch && entryMatch

/-- The side derived from the REST `positionAmt`:
`size > 0 ? "long" : size < 0 ? "short" : "flat"`. -/
def restSide (size : ℚ) : Side :=
  if 0 < size then .long else if size < 0 then .short else .flat

/-- The state overwrite shared by every successful `updateFromRest` branch:
the local view is replaced by the normalized REST view and the failure counter
resets. -/
def PositionStateManager.adoptRest (m : PositionStateManager)
    (positionAmt entryPrice unrealizedProfit : ℚ) (now : ℤ) : PositionStateManager :=
  { state :=
      { m.state with
          size := |positionAmt|
          side := restSide positionAmt
          avgEntry := entryPrice
          unrealizedPnl := unrealizedProfit
          lastUpdate := now }
    reconciliationFailures := 0 }

/-- `PositionStateManager.updateFromRest`, with the REST payload already
parsed: returns `(reconciled, new manager state)`. -/
def PositionStateManager.updateFromRest (m : PositionStateManager)
    (positionAmt entryPrice unrealizedProfit : ℚ) (now : ℤ) :
    Bool × PositionStateManager :=
  if PositionStateManager.reconcile
      ⟨|positionAmt|, restSide positionAmt, entryPrice, unrealizedProfit⟩
      ⟨m.state.size, m.state.side, m.state.avgEntry, m.state.unrealizedPnl⟩ then
    (true, m.adoptRest positionAmt entryPrice unrealizedProfit now)
  else if restSide positionAmt = .flat ∧ m.state.side ≠ .flat then
    (true, m.adoptRest positionAmt entryPrice unrealizedProfit now)
  else if restSide positionAmt ≠ .flat ∧ m.state.side = .flat then
    (true, m.adoptRest positionAmt entryPrice unrealizedProfit now)
  else
    (false, { m with reconciliationFailures := m.reconciliationFailures + 1 })

/-- `PositionStateManager.shouldFreezeTrading`. -/
def PositionStateManager.shouldFreezeTrading (m : PositionStateManager) : Bool :=
  decide (maxReconciliationFailures ≤ m.reconciliationFailures)

/-- `PositionStateManager.resetReconciliationFailures`. -/
def PositionStateManager.resetReconciliationFailures (m : PositionStateManager) :
    PositionStateManager :=
  { m with reconciliationFailures := 0 }

/-- The fragment of `BotRunner` state driven by the REST `position` event
handler (`startRestPolling`) and `freezeTrading`. -/
structure ReconcileLoop where
  manager : PositionStateManager
  tradingFrozen : Bool
  freezeUntil : ℤ
deriving DecidableEq, Repr

/-- One REST `position` report processed by the handler in
`BotRunner.startRestPolling`, restricted to the reconciliation/freeze path
(on success the handler additionally adopts the reconciled view into
`BotRunner.position`, which the claims do not touch): if `updateFromRest`
fails and `shouldFreezeTrading()` holds, `freezeTrading(60_000)` runs. -/
def ReconcileLoop.onPositionReport (r : ReconcileLoop)
    (positionAmt entryPrice unrealizedProfit : ℚ) (now : ℤ) : ReconcileLoop :=
  let res := r.manager.updateFromRest positionAmt entryPrice unrealizedProfit now
  if res.1 then { r with manager := res.2 }
  else if res.2.shouldFreezeTrading then
    { manager := res.2, tradingFrozen := true, freezeUntil := now + 60000 }
  else { r with manager := res.2 }

/-! ## BotRunner (`src/lib/runner/botRunner.ts`)

The orchestrator's admission and exit paths are embedded as pure step
functions over a `BotState` record holding exactly the mutable `BotRunner`
fields these paths read and write.  The execution adapter is an external
collaborator: each embedded method takes the adapter's outcome
(`ExecResult`) as an input and reports the calls it made (`ExecCall`). -/
/-- `RiskConfig` from `src/lib/types.ts` (optional numeric fields are
`Option ℚ` to model `undefined`). -/
structure RiskConfig where
  maxPositionSize : ℚ
  maxLeverage : ℚ
  maxFlipsPerHour : ℕ
  stopLossPct : Option ℚ
  takeProfitPct : Option ℚ
  useStopLoss : Bool
  emergencyStopLoss : Option ℚ
  requireTrendingMarket : Bool
  adxThreshold : ℚ
deriving DecidableEq, Repr

/-- `PositionState` from `src/lib/types.ts`. -/
structure PositionState where
  side : Side
  size : ℚ
  entryPrice : Option ℚ
  openedAt : Option ℤ
deriving DecidableEq, Repr

/-- `TradeInstruction` from `src/lib/types.ts`. -/
structure TradeInstruction where
  side : Dir
  size : ℚ
  leverage : ℚ
  price : ℚ
  signalReason : String
  timestamp : ℤ
deriving DecidableEq, Repr

/-- A call made to the execution adapter collaborator. -/
inductive ExecCall where
  | enterLong (order : TradeInstruction)
  | enterShort (order : TradeInstruction)
  | closeCall (reason : String)
deriving DecidableEq, Repr

/-- The adapter's outcome for one call (resolved or rejected promise). -/
inductive ExecResult where
  | success
  | failure (msg : String)
deriving DecidableEq, Repr

/-- The mutable `BotRunner` fields driven by the admission/exit paths. -/
structure BotState where
  position : PositionState
  flipHistory : List ℤ
  lastPositionEntryTime : ℤ
  consecutiveLosses : ℕ
  lastLossTime : ℤ
  lastPositionCloseTime : ℤ
  highestPrice : Option ℚ
  lowestPrice : Option ℚ
  usdtBalance : ℚ
  lastBar : Option SyntheticBar
deriving DecidableEq, Repr

/-- `minHoldTimeMs = 300_000`. -/
def minHoldTimeMs : ℤ := 300000

/-- `HOUR_MS = 60 * 60 * 1000`. -/
def HOUR_MS : ℤ := 3600000

/-- Substring test on character lists (JavaScript `String.includes`). -/
def hasSubList (pat : List Char) : List Char → Bool
  | [] => pat.isEmpty
  | c :: rest => pat.isPrefixOf (c :: rest) || hasSubList pat rest

/-- JavaScript `s.includes(pat)`. -/
def strIncludes (s pat : String) : Bool :=
  hasSubList pat.toList s.toList

/-- The reduce-only rejection test of `closePosition`:
`err.message.includes("ReduceOnly Order is rejected") || err.message.includes("-2022")`. -/
def reduceOnlyRejected (msg : String) : Bool :=
  strIncludes msg "ReduceOnly Order is rejected" || strIncludes msg "-2022"

/-- The insufficient-balance test of `enterPosition`:
`err.message.includes("balance") || err.message.includes("insufficient") || err.message.includes("-2019")`. -/
def insufficientBalanceMsg (msg : String) : Bool :=
  strIncludes msg "balance" || strIncludes msg "insufficient" || strIncludes msg "-2019"

/-- The `meta` argument of `closePosition` (only its `close`/`price` fields
are read). -/
structure CloseMeta where
  close : Option ℚ
  price : Option ℚ
deriving DecidableEq, Repr

/-- Exit-price resolution of `closePosition`: `meta.close`, else `meta.price`,
else the entry price (`|| 0`). -/
def exitPriceOf (meta : Option CloseMeta) (p : PositionState) : ℚ :=
  match meta with
  | some m =>
    match m.close with
    | some c => c
    | none =>
      match m.price with
      | some pr => pr
      | none => jsOrQ p.entryPrice 0
  | none => jsOrQ p.entryPrice 0

/-- `profitPct` of `closePosition`:
`entryPrice ? ((exit − entry)/entry)·100·(long ? 1 : −1) : 0`. -/
def closeProfitPct (p : PositionState) (exitPrice : ℚ) : ℚ :=
  match p.entryPrice with
  | some e =>
    if e = 0 then 0
    else (exitPrice - e) / e * 100 * (if p.side = .long then 1 else -1)
  | none => 0

/-- The close timestamp recorded by `closePosition`:
`this.lastBar?.endTime || Date.now()`. -/
def closeStamp (s : BotState) (now : ℤ) : ℤ :=
  jsOrZ (s.lastBar.map (·.endTime)) now

/-- The state bookkeeping of a successful `closePosition`: trailing marks
cleared, consecutive losses counted (increment on a losing close, reset to 0
otherwise), close timestamp recorded, position flat. -/
def BotRunner.closeBookkeeping (s : BotState) (exitPrice : ℚ) (now : ℤ) : BotState :=
  if closeProfitPct s.position exitPrice < 0 then
    { s with highestPrice := none, lowestPrice := none,
             consecutiveLosses := s.consecutiveLosses + 1, lastLossTime := now,
             lastPositionCloseTime := closeStamp s now,
             position := ⟨.flat, 0, none, none⟩ }
  else
    { s with highestPrice := none, lowestPrice := none,
             consecutiveLosses := 0,
             lastPositionCloseTime := closeStamp s now,
             position := ⟨.flat, 0, none, none⟩ }

/-- `BotRunner.closePosition(reason, meta)` with the adapter outcome as
input: no-op when flat; on a reduce-only rejection the local state is forced
flat and no error is surfaced; any other rejection propagates unchanged; on
success the close bookkeeping runs. -/
def BotRunner.closePosition (s : BotState) (reason : String) (meta : Option CloseMeta)
    (exec : ExecResult) (now : ℤ) : Except String (BotState × List ExecCall) :=
  if s.position.side = .flat then .ok (s, [])
  else
    match exec with
    | .failure msg =>
      if reduceOnlyRejected msg then
        .ok ({ s with lastPositionCloseTime := closeStamp s now,
                      position := ⟨.flat, 0, none, none⟩ },
             [.closeCall reason])
      else .error msg
    | .success =>
      .ok (BotRunner.closeBookkeeping s (exitPriceOf meta s.position) now,
           [.closeCall reason])

/-- The adapter call of `enterPosition` (`enterLong` or `enterShort`). -/
def execCallOf (side : Dir) (order : TradeInstruction) : ExecCall :=
  match side with
  | .long => .enterLong order
  | .short => .enterShort order

/-- `BotRunner.enterPosition`: balance check, adapter call (insufficient
balance is swallowed, other rejections propagate), then the optimistic local
bookkeeping including `recordFlip`. -/
def BotRunner.enterPosition (s : BotState) (side : Dir) (order : TradeInstruction)
    (exec : ExecResult) : Except String (BotState × List ExecCall) :=
  if s.usdtBalance < order.size / order.leverage then .ok (s, [])
  else
    match exec with
    | .failure msg =>
      if insufficientBalanceMsg msg then .ok (s, [execCallOf side order])
      else .error msg
    | .success =>
      .ok ({ s with
              position := ⟨side.toSide, order.size, some order.price, some order.timestamp⟩
              lastPositionEntryTime := order.timestamp
              highestPrice := if side = .long then some order.price else none
              lowestPrice := if side = .short then some order.price else none
              flipHistory := s.flipHistory ++ [order.timestamp] },
            [execCallOf side order])

/-- The pruning `canFlip` performs on `flipHistory`:
`filter((t) => t >= timestamp - HOUR_MS)`. -/
def BotRunner.pruneFlips (flips : List ℤ) (timestamp : ℤ) : List ℤ :=
  flips.filter (fun t => decide (timestamp - HOUR_MS ≤ t))

/-- `BotRunner.canFlip`: false iff the pruned rolling-hour flip count has
reached `maxFlipsPerHour`. -/
def BotRunner.canFlip (flips : List ℤ) (timestamp : ℤ) (maxFlipsPerHour : ℕ) : Bool :=
  decide ((BotRunner.pruneFlips flips timestamp).length < maxFlipsPerHour)

/-- JavaScript truthiness of an optional number (`null`, `undefined` and `0`
are falsy). -/
def jsTruthy (x : Option ℚ) : Bool :=
  match x with
  | some v => decide (v ≠ 0)
  | none => false

/-- The opposite direction. -/
def Dir.opp : Dir → Dir
  | .long => .short
  | .short => .long

/-- The reason string of a flip close (`"flip-long"` / `"flip-short"`). -/
def flipReason : Dir → String
  | .long => "flip-long"
  | .short => "flip-short"

/-- Configuration slice of `BotRunner` used by the admission/exit paths. -/
structure BotConfig where
  isPeachHybrid : Bool
  risk : RiskConfig
  timeframeMs : ℤ
deriving DecidableEq, Repr

/-- The non-null strategy signal as consumed by `applySignal`. -/
structure StrategySignalInfo where
  type : Dir
  reason : String
deriving DecidableEq, Repr

/-- The engine indicator snapshot `applySignal` reads in its peach-hybrid
branch (`getIndicatorValues()`), supplied by the engine collaborator. -/
structure PeachIndicatorInputs where
  adx : Option ℚ
  atr : Option ℚ
  recentHigh : Option ℚ
  recentLow : Option ℚ
  v2Rsi : Option ℚ
deriving DecidableEq, Repr

/-- `PeachHybridEngine.shouldAllowTrading(threshold)`:
`!adx.isReady || adx.isTrending(threshold)`. -/
def shouldAllowTrading (adx : Option ℚ) (threshold : ℚ) : Bool :=
  !adx.isSome || jsGt adx threshold

/-- The projected stop price for a long entry in the risk/reward check:
`recentLow && recentLow < entry ? min(recentLow·0.999, entry − 1.5·ATR) :
entry − 1.5·ATR`. -/
def stopPriceLong (entryPrice atrv : ℚ) (recentLow : Option ℚ) : ℚ :=
  match recentLow with
  | some rl =>
    if rl ≠ 0 ∧ rl < entryPrice then min (rl * (999 / 1000)) (entryPrice - atrv * (3 / 2))
    else entryPrice - atrv * (3 / 2)
  | none => entryPrice - atrv * (3 / 2)

/-- The projected stop price for a short entry (mirror image). -/
def stopPriceShort (entryPrice atrv : ℚ) (recentHigh : Option ℚ) : ℚ :=
  match recentHigh with
  | some rh =>
    if rh ≠ 0 ∧ entryPrice < rh then max (rh * (1001 / 1000)) (entryPrice + atrv * (3 / 2))
    else entryPrice + atrv * (3 / 2)
  | none => entryPrice + atrv * (3 / 2)

/-- The risk/reward gate of `applySignal` (peach branch): with a positive ATR
available, the target is placed at twice the risk distance and the resulting
ratio must be at least 2; without an ATR the gate passes. Returns `true` when
the signal may proceed. -/
def riskRewardGate (dir : Dir) (pi : PeachIndicatorInputs) (entryPrice : ℚ) : Bool :=
  match pi.atr with
  | some a =>
    if 0 < a then
      match dir with
      | .long =>
        let risk := entryPrice - stopPriceLong entryPrice a pi.recentLow
        let reward := (entryPrice + risk * 2) - entryPrice
        !(decide ((if 0 < risk then reward / risk else 0) < 2))
      | .short =>
        let risk := stopPriceShort entryPrice a pi.recentHigh - entryPrice
        let reward := entryPrice - (entryPrice - risk * 2)
        !(decide ((if 0 < risk then reward / risk else 0) < 2))
    else true
  | none => true

/-- The momentum-extremity gate of `applySignal`: with a V2 RSI available,
longs need RSI ∈ [30, 75] and shorts RSI ∈ [25, 70]. Returns `true` when the
signal may proceed. -/
def rsiExtremityGate (dir : Dir) (v2Rsi : Option ℚ) : Bool :=
  match v2Rsi with
  | some r =>
    match dir with
    | .long => !(decide (r < 30) || decide (75 < r))
    | .short => !(decide (r < 25) || decide (70 < r))
  | none => true

/-- The peach-hybrid admission checks of `applySignal` in source order (ADX
readiness, market regime, risk/reward, RSI extremity); returns the skip
reason of the first failing check. -/
def BotRunner.peachGate (risk : RiskConfig) (pi : PeachIndicatorInputs)
    (dir : Dir) (barClose : ℚ) : Option String :=
  if pi.adx.isSome = false then some "ADX not ready"
  else if shouldAllowTrading pi.adx risk.adxThreshold = false then some "Market not trending"
  else if riskRewardGate dir pi barClose = false then some "Insufficient R:R"
  else if rsiExtremityGate dir pi.v2Rsi = false then some "RSI too extreme"
  else none

/-- The order `applySignal` builds:
`size = Math.max(maxPositionSize, 1)`, `leverage = maxLeverage`,
`price = bar.close`, `timestamp = bar.endTime`. -/
def BotRunner.mkOrder (risk : RiskConfig) (sig : StrategySignalInfo)
    (bar : SyntheticBar) : TradeInstruction :=
  ⟨sig.type, max risk.maxPositionSize 1, risk.maxLeverage, bar.close, sig.reason, bar.endTime⟩

/-- Result of one `applySignal` call. -/
structure ApplyResult where
  applied : Bool
  state : BotState
  calls : List ExecCall
  skipReason : Option String
deriving DecidableEq, Repr

/-- The direction-specific tail of `applySignal` (the `signal.type === "long"`
and `"short"` branches are mirror images over `dir`): same-side no-op,
post-close cooldown (2 bars), flip budget (`canFlip` prunes the history even
when it passes), minimum hold time for a flip, then close-if-opposite and
enter. -/
def BotRunner.applyEntry (cfg : BotConfig) (s : BotState) (dir : Dir)
    (order : TradeInstruction) (bar : SyntheticBar) (now : ℤ)
    (closeExec enterExec : ExecResult) : Except String ApplyResult :=
  if s.position.side = dir.toSide then .ok ⟨false, s, [], none⟩
  else if 0 < s.lastPositionCloseTime ∧
      bar.endTime - s.lastPositionCloseTime < 2 * cfg.timeframeMs then
    .ok ⟨false, s, [], some "2-bar cooldown after close"⟩
  else if BotRunner.canFlip s.flipHistory bar.endTime cfg.risk.maxFlipsPerHour = false then
    .ok ⟨false, { s with flipHistory := BotRunner.pruneFlips s.flipHistory bar.endTime },
         [], some "Flip budget exhausted"⟩
  else if s.position.side = dir.opp.toSide ∧
      bar.endTime - s.lastPositionEntryTime < minHoldTimeMs then
    .ok ⟨false, { s with flipHistory := BotRunner.pruneFlips s.flipHistory bar.endTime },
         [], some "Minimum hold time not met"⟩
  else
    match (if s.position.side = dir.opp.toSide then
        BotRunner.closePosition
          { s with flipHistory := BotRunner.pruneFlips s.flipHistory bar.endTime }
          (flipReason dir) (some ⟨none, some bar.close⟩) closeExec now
      else
        .ok ({ s with flipHistory := BotRunner.pruneFlips s.flipHistory bar.endTime }, [])) with
    | .error e => .error e
    | .ok (s1, calls1) =>
      match BotRunner.enterPosition s1 dir order enterExec with
      | .error e => .error e
      | .ok (s2, calls2) => .ok ⟨true, s2, calls1 ++ calls2, none⟩

/-- `applySignal` after the consecutive-loss cooldown gate: the peach-hybrid
checks (when active), then the direction-specific tail. -/
def BotRunner.applySignalAfterCooldown (cfg : BotConfig) (pi : PeachIndicatorInputs)
    (s : BotState) (sig : StrategySignalInfo) (bar : SyntheticBar) (now : ℤ)
    (closeExec enterExec : ExecResult) : Except String ApplyResult :=
  if cfg.isPeachHybrid = true then
    match BotRunner.peachGate cfg.risk pi sig.type bar.close with
    | some r => .ok ⟨false, s, [], some r⟩
    | none =>
      BotRunner.applyEntry cfg s sig.type (BotRunner.mkOrder cfg.risk sig bar) bar now
        closeExec enterExec
  else
    BotRunner.applyEntry cfg s sig.type (BotRunner.mkOrder cfg.risk sig bar) bar now
      closeExec enterExec

/-- `BotRunner.applySignal` for a non-null signal: the consecutive-loss
cooldown gate first (skip inside the hour since the last loss, reset the
counter once the hour has elapsed), then the rest of the admission path.
`now` is `Date.now()`; the adapter outcomes for the potential flip close and
for the entry are explicit inputs. -/
def BotRunner.applySignal (cfg : BotConfig) (pi : PeachIndicatorInputs)
    (s : BotState) (sig : StrategySignalInfo) (bar : SyntheticBar) (now : ℤ)
    (closeExec enterExec : ExecResult) : Except String ApplyResult :=
  if 2 ≤ s.consecutiveLosses ∧ now - s.lastLossTime < 3600000 then
    .ok ⟨false, s, [], some "2 consecutive losses"⟩
  else
    BotRunner.applySignalAfterCooldown cfg pi
      (if 2 ≤ s.consecutiveLosses then { s with consecutiveLosses := 0 } else s)
      sig bar now closeExec enterExec

/-! ## Protective exit engine (`BotRunner.evaluateProtectiveExits`) -/
/-- Profit percentage of an open position at a bar close
(`((close − entry)/entry)·100` for a long, mirrored for a short). -/
def posProfitPct (side : Side) (entry close : ℚ) : ℚ :=
  if side = .long then (close - entry) / entry * 100
  else (entry - close) / entry * 100

/-- The running high-water mark update
(`if (highestPrice === null || close > highestPrice) highestPrice = close`,
longs only). -/
def updHigh (side : Side) (hi : Option ℚ) (close : ℚ) : Option ℚ :=
  if side = .long then
    match hi with
    | none => some close
    | some h => if h < close then some close else some h
  else hi

/-- The running low-water mark update (shorts only). -/
def updLow (side : Side) (lo : Option ℚ) (close : ℚ) : Option ℚ :=
  if side = .short then
    match lo with
    | none => some close
    | some l => if close < l then some close else some l
  else lo

/-- `effectiveStopLoss = isPeachHybrid ? 1.0 : (emergencyStopLoss || 2.0)`. -/
def effectiveEmergencyStop (cfg : BotConfig) : ℚ :=
  if cfg.isPeachHybrid = true then 1 else jsOrQ cfg.risk.emergencyStopLoss 2

/-- The emergency threshold `entry·(1 − S/100)` for a long and
`entry·(1 + S/100)` for a short. -/
def emergencyThresholdOf (side : Side) (entry stopPct : ℚ) : ℚ :=
  if side = .long then entry * (1 - stopPct / 100) else entry * (1 + stopPct / 100)

/-- Outcome of one protective-exit evaluation: the reason of the triggered
close (if any) and the updated trailing marks. -/
structure ProtectiveDecision where
  closeReason : Option String
  highestPrice : Option ℚ
  lowestPrice : Option ℚ
deriving DecidableEq, Repr

/-- The body of `evaluateProtectiveExits` for an open position with non-zero
entry price `entry`; `tse` is `bar.endTime − (openedAt || lastPositionEntryTime)`.
The ordered checks are transcribed with each source `if`-nest flattened into
one condition per reason: peach RSI extremity exits (30 s dwell), watermellon
hard stop-loss and RSI exits (`useStopLoss` only), high/low-water-mark update,
peach trailing stop (30 s dwell, 0.3 % activation and distance), emergency
stop (no dwell guard), plain percentage stop-loss. -/
def protectiveBody (cfg : BotConfig) (s : BotState) (bar : SyntheticBar)
    (v2Rsi watermelonRsi : Option ℚ) (entry : ℚ) (tse : ℤ) : ProtectiveDecision :=
  if cfg.isPeachHybrid = true ∧ 30000 ≤ tse ∧ s.position.side = .long ∧
      jsGt v2Rsi 75 = true then
    ⟨some "rsi-overbought", s.highestPrice, s.lowestPrice⟩
  else if cfg.isPeachHybrid = true ∧ 30000 ≤ tse ∧ s.position.side = .short ∧
      jsLt v2Rsi 25 = true then
    ⟨some "rsi-oversold", s.highestPrice, s.lowestPrice⟩
  else if cfg.isPeachHybrid = false ∧ cfg.risk.useStopLoss = true ∧
      jsTruthy cfg.risk.stopLossPct = true ∧
      posProfitPct s.position.side entry bar.close ≤ -|(cfg.risk.stopLossPct.getD 0)| then
    ⟨some "watermelon-stop-loss", s.highestPrice, s.lowestPrice⟩
  else if cfg.isPeachHybrid = false ∧ cfg.risk.useStopLoss = true ∧ 30000 ≤ tse ∧
      s.position.side = .long ∧ jsGt watermelonRsi 75 = true ∧
      1 / 2 < posProfitPct s.position.side entry bar.close then
    ⟨some "watermelon-rsi-overbought", s.highestPrice, s.lowestPrice⟩
  else if cfg.isPeachHybrid = false ∧ cfg.risk.useStopLoss = true ∧ 30000 ≤ tse ∧
      s.position.side = .short ∧ jsLt watermelonRsi 25 = true ∧
      1 / 2 < posProfitPct s.position.side entry bar.close then
    ⟨some "watermelon-rsi-oversold", s.highestPrice, s.lowestPrice⟩
  else if cfg.isPeachHybrid = true ∧ 30000 ≤ tse ∧ s.position.side = .long ∧
      (updHigh s.position.side s.highestPrice bar.close).isSome = true ∧
      3 / 10 < posProfitPct .long entry bar.close ∧
      bar.close ≤ (updHigh s.position.side s.highestPrice bar.close).getD 0 * (1 - 3 / 1000) then
    ⟨some "trailing-stop", updHigh s.position.side s.highestPrice bar.close,
     updLow s.position.side s.lowestPrice bar.close⟩
  else if cfg.isPeachHybrid = true ∧ 30000 ≤ tse ∧ s.position.side = .short ∧
      (updLow s.position.side s.lowestPrice bar.close).isSome = true ∧
      3 / 10 < posProfitPct .short entry bar.close ∧
      (updLow s.position.side s.lowestPrice bar.close).getD 0 * (1 + 3 / 1000) ≤ bar.close then
    ⟨some "trailing-stop", updHigh s.position.side s.highestPrice bar.close,
     updLow s.position.side s.lowestPrice bar.close⟩
  else if 0 < effectiveEmergencyStop cfg ∧
      (cfg.isPeachHybrid = true ∨ cfg.risk.useStopLoss = true) ∧
      ((s.position.side = .long ∧
          bar.close ≤ emergencyThresholdOf .long entry (effectiveEmergencyStop cfg)) ∨
        (s.position.side = .short ∧
          emergencyThresholdOf .short entry (effectiveEmergencyStop cfg) ≤ bar.close)) then
    ⟨some "emergency-stop", updHigh s.position.side s.highestPrice bar.close,
     updLow s.position.side s.lowestPrice bar.close⟩
  else if jsTruthy cfg.risk.stopLossPct = true ∧ 0 < cfg.risk.stopLossPct.getD 0 ∧
      cfg.risk.useStopLoss = true ∧
      ((s.position.side = .long ∧
          bar.close ≤ emergencyThresholdOf .long entry (cfg.risk.stopLossPct.getD 0)) ∨
        (s.position.side = .short ∧
          emergencyThresholdOf .short entry (cfg.risk.stopLossPct.getD 0) ≤ bar.close)) then
    ⟨some "stop-loss", updHigh s.position.side s.highestPrice bar.close,
     updLow s.position.side s.lowestPrice bar.close⟩
  else
    ⟨none, updHigh s.position.side s.highestPrice bar.close,
     updLow s.position.side s.lowestPrice bar.close⟩

/-- `BotRunner.evaluateProtectiveExits(bar)`: inert while flat or without a
truthy entry price, otherwise the ordered protective checks (the engine RSI
snapshots `v2Rsi`/`watermelonRsi` come from the engine collaborator). -/
def BotRunner.evaluateProtectiveExits (cfg : BotConfig) (s : BotState)
    (bar : SyntheticBar) (v2Rsi watermelonRsi : Option ℚ) : ProtectiveDecision :=
  match s.position.entryPrice with
  | none => ⟨none, s.highestPrice, s.lowestPrice⟩
  | some entry =>
    if s.position.side = .flat ∨ entry = 0 then ⟨none, s.highestPrice, s.lowestPrice⟩
    else
      protectiveBody cfg s bar v2Rsi watermelonRsi entry
        (bar.endTime - jsOrZ s.position.openedAt s.lastPositionEntryTime)

/-! ### Claim C10: submitted order size -/
/-- The size carried by an adapter call (`none` for close calls). -/
def entrySize : ExecCall → Option ℚ
  | .enterLong o => some o.size
  | .enterShort o => some o.size
  | .closeCall _ => none

/-! ### Claim C3: flip budget -/
/-- A watermellon configuration with `maxFlipsPerHour = 3` for the flip-budget
scenario. -/
def c3cfg : BotConfig := ⟨false, ⟨100, 5, 3, none, none, false, none, false, 25⟩, 30000⟩

/-- A 100-close scenario bar ending at `t`. -/
def scenarioBar (t : ℤ) : SyntheticBar := ⟨t - 30000, t, 100, 100, 100, 100, 1⟩

/-- Empty engine snapshot (ignored on the watermellon path). -/
def noPeachInputs : PeachIndicatorInputs := ⟨none, none, none, none, none⟩

/-- Scenario start: flat, no flips, ample balance, the first bar current. -/
def c3in1 : BotState :=
  ⟨⟨.flat, 0, none, none⟩, [], 0, 0, 0, 0, none, none, 1000, some (scenarioBar 600000)⟩

/-- After the first (long) signal is applied. -/
def c3out1 : BotState :=
  ⟨⟨.long, 100, some 100, some 600000⟩, [600000], 600000, 0, 0, 0, some 100, none, 1000,
   some (scenarioBar 600000)⟩

/-- Second step input: the runner has moved on to the bar ending at 1 200 000. -/
def c3in2 : BotState := { c3out1 with lastBar := some (scenarioBar 1200000) }

/-- After the second (short, flip) signal is applied. -/
def c3out2 : BotState :=
  ⟨⟨.short, 100, some 100, some 1200000⟩, [600000, 1200000], 1200000, 0, 0, 1200000,
   none, some 100, 1000, some (scenarioBar 1200000)⟩

/-- Third step input. -/
def c3in3 : BotState := { c3out2 with lastBar := some (scenarioBar 1800000) }

/-- After the third (long, flip) signal is applied. -/
def c3out3 : BotState :=
  ⟨⟨.long, 100, some 100, some 1800000⟩, [600000, 1200000, 1800000], 1800000, 0, 0,
   1800000, some 100, none, 1000, some (scenarioBar 1800000)⟩

/-- Fourth step input. -/
def c3in4 : BotState := { c3out3 with lastBar := some (scenarioBar 2400000) }

/-! ## Strategy engines

`WatermellonEngine` (`src/lib/watermellonEngine.ts`) and `PeachHybridEngine`
(`src/lib/peachHybridEngine.ts`) are in the sources; their `EMA` and `RSI`
indicator classes (`src/lib/indicators/ema.ts`, `src/lib/indicators/rsi.ts`)
are not, so those two are modelled from the spec. -/
/-- Modelled from the spec: the repository's `EMA` implementation
(`src/lib/indicators/ema.ts`) is missing from the sources.  §4.1: seeds with
the first input as the initial value; thereafter
`value = value·(1−α) + input·α` with `α = 2/(length+1)`. -/
structure EMA where
  length : ℕ
  value : Option ℚ
deriving DecidableEq, Repr

/-- A fresh `EMA(length)`. -/
def EMA.init (length : ℕ) : EMA := ⟨length, none⟩

/-- Modelled from the spec: one `EMA.update(input)` call. -/
def EMA.update (e : EMA) (x : ℚ) : EMA :=
  match e.value with
  | none => { e with value := some x }
  | some v =>
    { e with value := some (v * (1 - 2 / ((e.length : ℚ) + 1)) + x * (2 / ((e.length : ℚ) + 1))) }

/-- Modelled from the spec: the repository's `RSI` implementation
(`src/lib/indicators/rsi.ts`) is missing from the sources.  §4.1:
Wilder-smoothed average gain/loss over `length` periods, ready only after
`length` updates (here: `length` price changes — a simple average seeds the
gain/loss averages, Wilder smoothing `α = 1/length` thereafter); the value is
`100 − 100/(1 + avgGain/avgLoss)`, taken as `100` when the average loss is
zero. -/
structure RSI where
  length : ℕ
  prevClose : Option ℚ
  avgGain : Option ℚ
  avgLoss : Option ℚ
  seedGains : List ℚ
  seedLosses : List ℚ
deriving DecidableEq, Repr

/-- A fresh `RSI(length)`. -/
def RSI.init (length : ℕ) : RSI := ⟨length, none, none, none, [], []⟩

/-- Modelled from the spec: the RSI value once warm (`null` before). -/
def RSI.value (r : RSI) : Option ℚ :=
  match r.avgGain, r.avgLoss with
  | some g, some l => some (if l = 0 then 100 else 100 - 100 / (1 + g / l))
  | _, _ => none

/-- Modelled from the spec: one `RSI.update(close)` call. -/
def RSI.update (r : RSI) (close : ℚ) : RSI :=
  match r.prevClose with
  | none => { r with prevClose := some close }
  | some pc =>
    match r.avgGain, r.avgLoss with
    | some g, some l =>
      { r with prevClose := some close,
               avgGain := some ((g * ((r.length : ℚ) - 1) + max (close - pc) 0) / (r.length : ℚ)),
               avgLoss := some ((l * ((r.length : ℚ) - 1) + max (pc - close) 0) / (r.length : ℚ)) }
    | _, _ =>
      if r.seedGains.length + 1 = r.length then
        { r with prevClose := some close,
                 avgGain := some ((r.seedGains.sum + max (close - pc) 0) / (r.length : ℚ)),
                 avgLoss := some ((r.seedLosses.sum + max (pc - close) 0) / (r.length : ℚ)) }
      else
        { r with prevClose := some close,
                 seedGains := r.seedGains ++ [max (close - pc) 0],
                 seedLosses := r.seedLosses ++ [max (pc - close) 0] }

/-- Mutable state of the `ATR` class (`src/lib/indicators/atr.ts`). -/
structure ATR where
  length : ℕ
  trValues : List ℚ
  prevHigh : Option ℚ
  prevLow : Option ℚ
  prevClose : Option ℚ
  atrValue : Option ℚ
  updateCount : ℕ
deriving DecidableEq, Repr

/-- A fresh `ATR(length)` (constructor requires `length ≥ 2`). -/
def ATR.init (length : ℕ) : ATR := ⟨length, [], none, none, none, none, 0⟩

/-- One call of `ATR.update(high, low, close)`. -/
def ATR.update (s : ATR) (high low close : ℚ) : ATR :=
  match s.prevHigh, s.prevLow, s.prevClose with
  | some _, some _, some pc =>
    if s.updateCount + 1 < s.length then
      { s with updateCount := s.updateCount + 1,
               trValues := pushWindow s.trValues (trueRange high low pc) s.length,
               prevHigh := some high, prevLow := some low, prevClose := some close }
    else if s.updateCount + 1 = s.length then
      { s with updateCount := s.updateCount + 1,
               trValues := pushWindow s.trValues (trueRange high low pc) s.length,
               atrValue := some ((pushWindow s.trValues (trueRange high low pc) s.length).sum /
                 (((pushWindow s.trValues (trueRange high low pc) s.length).length : ℕ) : ℚ)),
               prevHigh := some high, prevLow := some low, prevClose := some close }
    else
      { s with updateCount := s.updateCount + 1,
               trValues := pushWindow s.trValues (trueRange high low pc) s.length,
               atrValue := some (s.atrValue.getD 0 * (1 - 1 / (s.length : ℚ)) +
                 trueRange high low pc * (1 / (s.length : ℚ))),
               prevHigh := some high, prevLow := some low, prevClose := some close }
  | _, _, _ =>
    { s with prevHigh := some high, prevLow := some low, prevClose := some close }

/-- `WatermellonConfig`. -/
structure WatermellonConfig where
  timeframeMs : ℤ
  emaFastLen : ℕ
  emaMidLen : ℕ
  emaSlowLen : ℕ
  rsiLength : ℕ
  rsiMinLong : ℚ
  rsiMaxShort : ℚ
  adxLength : ℕ
  adxThreshold : ℚ
deriving DecidableEq, Repr

/-- The per-bar indicator values the Watermellon trigger logic consumes
(the EMA updates return plain numbers; RSI and ADX may still be null). -/
structure WmValues where
  emaFast : ℚ
  emaMid : ℚ
  emaSlow : ℚ
  rsi : Option ℚ
  adx : Option ℚ
deriving DecidableEq, Repr

/-- The Watermellon look-state (`lastLongLook` / `lastShortLook`). -/
structure WmState where
  lastLongLook : Bool
  lastShortLook : Bool
deriving DecidableEq, Repr

/-- The Watermellon ADX gate: `adxValue === null || adxValue < adxThreshold`
resets the look-state and produces no signal; the gate passes otherwise. -/
def wmGatePass (cfg : WatermellonConfig) (v : WmValues) : Bool :=
  match v.adx with
  | none => false
  | some a => decide (cfg.adxThreshold ≤ a)

/-- The Watermellon long-look condition:
`bullStack && rsi > rsiMinLong && rsi > 55`. -/
def wmLongLook (cfg : WatermellonConfig) (v : WmValues) : Bool :=
  decide (v.emaMid < v.emaFast) && decide (v.emaSlow < v.emaMid) &&
    jsGt v.rsi cfg.rsiMinLong && jsGt v.rsi 55

/-- The Watermellon short-look condition:
`bearStack && rsi < rsiMaxShort && rsi < 45`. -/
def wmShortLook (cfg : WatermellonConfig) (v : WmValues) : Bool :=
  decide (v.emaFast < v.emaMid) && decide (v.emaMid < v.emaSlow) &&
    jsLt v.rsi cfg.rsiMaxShort && jsLt v.rsi 45

/-- The signal/look-state logic of `WatermellonEngine.update` after the
indicator updates: the ADX gate, then edge-triggered long/short looks. -/
def wmStep (cfg : WatermellonConfig) (st : WmState) (v : WmValues) :
    WmState × Option StrategySignalInfo :=
  if wmGatePass cfg v = false then (⟨false, false⟩, none)
  else if wmLongLook cfg v && !st.lastLongLook then
    (⟨wmLongLook cfg v, wmShortLook cfg v⟩, some ⟨.long, "long-trigger"⟩)
  else if wmShortLook cfg v && !st.lastShortLook then
    (⟨wmLongLook cfg v, wmShortLook cfg v⟩, some ⟨.short, "short-trigger"⟩)
  else (⟨wmLongLook cfg v, wmShortLook cfg v⟩, none)

/-- Mutable state of `WatermellonEngine`. -/
structure WatermellonEngine where
  config : WatermellonConfig
  emaFast : EMA
  emaMid : EMA
  emaSlow : EMA
  rsi : RSI
  adx : ADX
  look : WmState
deriving DecidableEq, Repr

/-- A fresh `WatermellonEngine(config)`. -/
def WatermellonEngine.init (cfg : WatermellonConfig) : WatermellonEngine :=
  ⟨cfg, EMA.init cfg.emaFastLen, EMA.init cfg.emaMidLen, EMA.init cfg.emaSlowLen,
   RSI.init cfg.rsiLength, ADX.init cfg.adxLength, ⟨false, false⟩⟩

/-- `WatermellonEngine.update(bar)`: the indicator updates followed by
`wmStep` on the resulting values. -/
def WatermellonEngine.update (e : WatermellonEngine) (bar : SyntheticBar) :
    WatermellonEngine × Option StrategySignalInfo :=
  let ef := e.emaFast.update bar.close
  let em := e.emaMid.update bar.close
  let es := e.emaSlow.update bar.close
  let r := e.rsi.update bar.close
  let a := e.adx.update bar.high bar.low bar.close
  let st := wmStep e.config ⟨e.look.lastLongLook, e.look.lastShortLook⟩
    ⟨ef.value.getD 0, em.value.getD 0, es.value.getD 0, r.value, a.adxValue⟩
  ({ e with emaFast := ef, emaMid := em, emaSlow := es, rsi := r, adx := a, look := st.1 },
   st.2)

/-- The outputs of a Watermellon look-state run over a list of per-bar
indicator values. -/
def wmRunOutputs (cfg : WatermellonConfig) (st : WmState) :
    List WmValues → List (Option StrategySignalInfo)
  | [] => []
  | v :: rest => (wmStep cfg st v).2 :: wmRunOutputs cfg (wmStep cfg st v).1 rest

/-- `PeachV1Config`. -/
structure PeachV1Config where
  emaFastLen : ℕ
  emaMidLen : ℕ
  emaSlowLen : ℕ
  emaMicroFastLen : ℕ
  emaMicroSlowLen : ℕ
  rsiLength : ℕ
  rsiMinLong : ℚ
  rsiMaxShort : ℚ
  minBarsBetween : ℕ
  minMovePercent : ℚ
deriving DecidableEq, Repr

/-- `PeachV2Config`. -/
structure PeachV2Config where
  emaFastLen : ℕ
  emaMidLen : ℕ
  emaSlowLen : ℕ
  rsiMomentumThreshold : ℚ
  volumeLookback : ℕ
  volumeMultiplier : ℚ
  exitVolumeMultiplier : ℚ
deriving DecidableEq, Repr

/-- `PeachConfig`. -/
structure PeachConfig where
  timeframeMs : ℤ
  v1 : PeachV1Config
  v2 : PeachV2Config
deriving DecidableEq, Repr

/-- Mutable state of `PeachHybridEngine` (`lookbackPeriod` is the fixed 20;
the V2 RSI and the ADX/ATR are constructed with fixed length 14). -/
structure PeachHybridEngine where
  config : PeachConfig
  v1EmaFast : EMA
  v1EmaMid : EMA
  v1EmaSlow : EMA
  v1EmaMicroFast : EMA
  v1EmaMicroSlow : EMA
  v1Rsi : RSI
  v1LastLongLook : Bool
  v1LastShortLook : Bool
  v1LastLongPrice : ℚ
  v1LastShortPrice : ℚ
  v1BarsSinceLastSignal : ℕ
  v2EmaFast : EMA
  v2EmaMid : EMA
  v2EmaSlow : EMA
  v2Rsi : RSI
  v2RsiHistory : List ℚ
  volumeHistory : List ℚ
  adx : ADX
  atr : ATR
  recentHighs : List ℚ
  recentLows : List ℚ
  position : Option Side
deriving DecidableEq, Repr

/-- A fresh `PeachHybridEngine(config)`. -/
def PeachHybridEngine.init (cfg : PeachConfig) : PeachHybridEngine :=
  ⟨cfg,
   EMA.init cfg.v1.emaFastLen, EMA.init cfg.v1.emaMidLen, EMA.init cfg.v1.emaSlowLen,
   EMA.init cfg.v1.emaMicroFastLen, EMA.init cfg.v1.emaMicroSlowLen,
   RSI.init cfg.v1.rsiLength, false, false, 0, 0, 0,
   EMA.init cfg.v2.emaFastLen, EMA.init cfg.v2.emaMidLen, EMA.init cfg.v2.emaSlowLen,
   RSI.init 14, [], [], ADX.init 14, ATR.init 14, [], [], none⟩

/-- The per-bar indicator values `PeachHybridEngine.update` derives before
running the two sub-systems. -/
structure PeachBarValues where
  v1EmaFast : ℚ
  v1EmaMid : ℚ
  v1EmaSlow : ℚ
  v1EmaMicroFast : ℚ
  v1EmaMicroSlow : ℚ
  v1Rsi : Option ℚ
  v2EmaFast : ℚ
  v2EmaMid : ℚ
  v2EmaSlow : ℚ
  v2Rsi : Option ℚ
deriving DecidableEq, Repr

/-- The indicator-update prefix of `PeachHybridEngine.update(bar)`: every
EMA/RSI is fed the bar close and ADX/ATR the bar; returns the updated engine
and this bar's values. -/
def PeachHybridEngine.indicatorStep (e : PeachHybridEngine) (bar : SyntheticBar) :
    PeachHybridEngine × PeachBarValues :=
  let f1 := e.v1EmaFast.update bar.close
  let m1 := e.v1EmaMid.update bar.close
  let s1 := e.v1EmaSlow.update bar.close
  let mf1 := e.v1EmaMicroFast.update bar.close
  let ms1 := e.v1EmaMicroSlow.update bar.close
  let r1 := e.v1Rsi.update bar.close
  let f2 := e.v2EmaFast.update bar.close
  let m2 := e.v2EmaMid.update bar.close
  let s2 := e.v2EmaSlow.update bar.close
  let r2 := e.v2Rsi.update bar.close
  let a := e.adx.update bar.high bar.low bar.close
  let t := e.atr.update bar.high bar.low bar.close
  ({ e with v1EmaFast := f1, v1EmaMid := m1, v1EmaSlow := s1,
            v1EmaMicroFast := mf1, v1EmaMicroSlow := ms1, v1Rsi := r1,
            v2EmaFast := f2, v2EmaMid := m2, v2EmaSlow := s2, v2Rsi := r2,
            adx := a, atr := t },
   ⟨f1.value.getD 0, m1.value.getD 0, s1.value.getD 0,
    mf1.value.getD 0, ms1.value.getD 0, r1.value,
    f2.value.getD 0, m2.value.getD 0, s2.value.getD 0, r2.value⟩)

/-- The V1 long-look condition of `checkV1System`:
`bullStack && microBullStack && rsi > rsiMinLong`. -/
def peachV1LongLook (cfg : PeachV1Config)
    (emaFast emaMid emaSlow emaMicroFast emaMicroSlow : ℚ) (rsi : Option ℚ) : Bool :=
  decide (emaMid < emaFast) && decide (emaSlow < emaMid) &&
    decide (emaMicroSlow < emaMicroFast) && jsGt rsi cfg.rsiMinLong

/-- The V1 short-look condition of `checkV1System`. -/
def peachV1ShortLook (cfg : PeachV1Config)
    (emaFast emaMid emaSlow emaMicroFast emaMicroSlow : ℚ) (rsi : Option ℚ) : Bool :=
  decide (emaFast < emaMid) && decide (emaMid < emaSlow) &&
    decide (emaMicroFast < emaMicroSlow) && jsLt rsi cfg.rsiMaxShort

/-- The price-move suppression of `checkV1System`: for each of the last long
and last short trigger prices that is set (`> 0`), the price must have moved
at least `minMovePercent` from it. -/
def v1PriceMoveMet (e : PeachHybridEngine) (price : ℚ) : Bool :=
  (if 0 < e.v1LastLongPrice then
      decide (e.config.v1.minMovePercent ≤ |(price - e.v1LastLongPrice) / e.v1LastLongPrice| * 100)
    else true) &&
  (if 0 < e.v1LastShortPrice then
      decide (e.config.v1.minMovePercent ≤ |(price - e.v1LastShortPrice) / e.v1LastShortPrice| * 100)
    else true)

/-- The edge-trigger tail of `checkV1System`: the look-state is recorded and
a signal fires only on a rising edge. -/
def PeachHybridEngine.v1Apply (e : PeachHybridEngine) (price : ℚ)
    (longLook shortLook : Bool) : PeachHybridEngine × Option StrategySignalInfo :=
  if longLook && !e.v1LastLongLook then
    ({ e with v1LastLongLook := longLook, v1LastShortLook := shortLook,
              v1LastLongPrice := price, v1BarsSinceLastSignal := 0 },
     some ⟨.long, "v1-long"⟩)
  else if shortLook && !e.v1LastShortLook then
    ({ e with v1LastLongLook := longLook, v1LastShortLook := shortLook,
              v1LastShortPrice := price, v1BarsSinceLastSignal := 0 },
     some ⟨.short, "v1-short"⟩)
  else
    ({ e with v1LastLongLook := longLook, v1LastShortLook := shortLook }, none)

/-- `PeachHybridEngine.checkV1System`: null RSI returns immediately; the
`minBarsBetween` spacing and the price-move suppression return BEFORE the
look-state is recorded; otherwise the edge-trigger tail runs. -/
def PeachHybridEngine.checkV1System (e : PeachHybridEngine)
    (price emaFast emaMid emaSlow emaMicroFast emaMicroSlow : ℚ) (rsi : Option ℚ) :
    PeachHybridEngine × Option StrategySignalInfo :=
  match rsi with
  | none => (e, none)
  | some r =>
    if e.v1BarsSinceLastSignal < e.config.v1.minBarsBetween then (e, none)
    else if v1PriceMoveMet e price = false then (e, none)
    else
      e.v1Apply price
        (peachV1LongLook e.config.v1 emaFast emaMid emaSlow emaMicroFast emaMicroSlow (some r))
        (peachV1ShortLook e.config.v1 emaFast emaMid emaSlow emaMicroFast emaMicroSlow (some r))

/-- `PeachHybridEngine.checkV2System`: the momentum-surge system (no
edge-triggering): RSI history of at least 3 samples, RSI momentum over two
bars at least the threshold, a volume spike, bar color and EMA stack all
aligned. -/
def PeachHybridEngine.checkV2System (e : PeachHybridEngine)
    (emaFast emaMid emaSlow : ℚ) (rsi : Option ℚ)
    (volume barOpen barClose : ℚ) : Option StrategySignalInfo :=
  match rsi with
  | none => none
  | some _ =>
    if e.v2RsiHistory.length < 3 then none
    else if e.volumeHistory.length = 0 then none
    else
      if decide (e.config.v2.rsiMomentumThreshold ≤
            |e.v2RsiHistory.getD (e.v2RsiHistory.length - 1) 0 -
              e.v2RsiHistory.getD (e.v2RsiHistory.length - 3) 0|) &&
          decide (0 < e.v2RsiHistory.getD (e.v2RsiHistory.length - 1) 0 -
            e.v2RsiHistory.getD (e.v2RsiHistory.length - 3) 0) &&
          decide (e.volumeHistory.sum / ((e.volumeHistory.length : ℕ) : ℚ) *
            e.config.v2.volumeMultiplier ≤ volume) &&
          decide (barOpen < barClose) &&
          decide (emaMid < emaFast) && decide (emaSlow < emaMid) then
        some ⟨.long, "v2-long"⟩
      else if decide (e.config.v2.rsiMomentumThreshold ≤
            |e.v2RsiHistory.getD (e.v2RsiHistory.length - 1) 0 -
              e.v2RsiHistory.getD (e.v2RsiHistory.length - 3) 0|) &&
          decide (e.v2RsiHistory.getD (e.v2RsiHistory.length - 1) 0 -
            e.v2RsiHistory.getD (e.v2RsiHistory.length - 3) 0 < 0) &&
          decide (e.volumeHistory.sum / ((e.volumeHistory.length : ℕ) : ℚ) *
            e.config.v2.volumeMultiplier ≤ volume) &&
          !(decide (barOpen < barClose)) &&
          decide (emaFast < emaMid) && decide (emaMid < emaSlow) then
        some ⟨.short, "v2-short"⟩
      else none

/-- `PeachHybridEngine.update(bar)`: indicator updates, window bookkeeping
(recent highs/lows capped at 20, RSI history capped at 3, volume history
capped at `max(volumeLookback, 10)`), the bar counter increment, then V1
first and V2 only if V1 produced nothing. -/
def PeachHybridEngine.update (e : PeachHybridEngine) (bar : SyntheticBar) :
    PeachHybridEngine × Option StrategySignalInfo :=
  let step := e.indicatorStep bar
  let e2 := { step.1 with
    recentHighs := pushWindow step.1.recentHighs bar.high 20
    recentLows := pushWindow step.1.recentLows bar.low 20
    v2RsiHistory :=
      match step.2.v2Rsi with
      | some r => pushWindow step.1.v2RsiHistory r 3
      | none => step.1.v2RsiHistory
    volumeHistory :=
      pushWindow step.1.volumeHistory bar.volume (max e.config.v2.volumeLookback 10)
    v1BarsSinceLastSignal := step.1.v1BarsSinceLastSignal + 1 }
  match e2.checkV1System bar.close step.2.v1EmaFast step.2.v1EmaMid step.2.v1EmaSlow
      step.2.v1EmaMicroFast step.2.v1EmaMicroSlow step.2.v1Rsi with
  | (e3, some sig) => (e3, some sig)
  | (e3, none) =>
    (e3, e3.checkV2System step.2.v2EmaFast step.2.v2EmaMid step.2.v2EmaSlow step.2.v2Rsi
      bar.volume bar.openPrice bar.close)

/-! ### Claim C4: edge-triggered signals -/
/-- Peach configuration for the counterexample run: V1 EMA lengths 1/2/3,
micro 1/2, RSI length 2, no RSI floor, `minBarsBetween = 4`, no price-move
floor; V2 effectively inert (huge momentum threshold). -/
def c4cfg : PeachConfig :=
  ⟨30000, ⟨1, 2, 3, 1, 2, 2, 0, 0, 4, 0⟩, ⟨1, 2, 3, 1000, 1, 100, 1⟩⟩

/-- A flat bar at price `c` ending at `t`. -/
def c4bar (t : ℤ) (c : ℚ) : SyntheticBar := ⟨t - 30000, t, c, c, c, c, 1⟩

/-- The engine before bar 1. -/
def c4e0 : PeachHybridEngine := PeachHybridEngine.init c4cfg

/-- The engine after bar 1 (close 10). -/
def c4e1 : PeachHybridEngine := (c4e0.update (c4bar 30000 10)).1

/-- The engine after bar 2 (close 11). -/
def c4e2 : PeachHybridEngine := (c4e1.update (c4bar 60000 11)).1

/-- The engine after bar 3 (close 12). -/
def c4e3 : PeachHybridEngine := (c4e2.update (c4bar 90000 12)).1

/-- The indicator values at bar 2. -/
def c4vals2 : PeachBarValues := (c4e1.indicatorStep (c4bar 60000 11)).2

/-- The indicator values at bar 3. -/
def c4vals3 : PeachBarValues := (c4e2.indicatorStep (c4bar 90000 12)).2

/-- The indicator values at bar 4. -/
def c4vals4 : PeachBarValues := (c4e3.indicatorStep (c4bar 120000 13)).2

/-- A Watermellon configuration with ADX threshold 25 for the witness run. -/
def c4wcfg : WatermellonConfig := ⟨30000, 1, 2, 3, 2, 50, 50, 14, 25⟩

/-- Per-bar values passing the ADX gate and the long-look stack. -/
def c4wv : WmValues := ⟨3, 2, 1, some 60, some 30⟩

/-- A Peach engine past the `minBarsBetween` spacing with clear look-state. -/
def c4pe : PeachHybridEngine :=
  { PeachHybridEngine.init c4cfg with v1BarsSinceLastSignal := 4 }

/-! ### Structural lemmas about `ADX.update` -/
theorem ADX.diFinish_length (s b : ADX) (di : ℚ × ℚ × ℚ) :
    (ADX.diFinish s b di).length = b.length := by
  unfold ADX.diFinish; split <;> rfl

theorem ADX.update_length (s : ADX) (h l c : ℚ) : (s.update h l c).length = s.length := by
  unfold ADX.update
  split
  · split
    · rfl
    · rw [ADX.diFinish_length]; rfl
  · rfl

theorem ADX.dxApply_fst_le (s : ADX) (dx : ℚ) :
    (s.dxApply dx).1.length ≤ s.dxValues.length + 1 := by
  unfold ADX.dxApply
  split
  · simp
  · split
    · split
      · simp
      · simp
    · simp

theorem ADX.dxApply_snd_none (s : ADX) (dx : ℚ) (hs : s.adxValue = none)
    (hne : (s.dxApply dx).2 ≠ none) : s.length ≤ s.dxValues.length + 1 := by
  unfold ADX.dxApply at hne
  split at hne
  · exact absurd hs hne
  · rw [hs] at hne
    simp only at hne
    split at hne
    · simpa using ‹s.length ≤ (s.dxValues ++ [dx]).length›
    · simp at hne

theorem ADX.dxApply_snd_some (s : ADX) (dx : ℚ) (hs : s.adxValue ≠ none) :
    (s.dxApply dx).2 ≠ none := by
  unfold ADX.dxApply
  split
  · exact hs
  · match hv : s.adxValue with
    | none => exact absurd hv hs
    | some a => simp

/-- Case analysis on one `ADX.update` call: either the first call (counter and
DX state untouched), or an early return (counter bumped, DX state untouched),
or a DX-applying call (counter bumped, `length ≤` old counter `+ 1`, DX state
given by `dxApply`). -/
theorem ADX.update_shape (s : ADX) (h l c : ℚ) :
    ((s.update h l c).updateCount = s.updateCount ∧
       (s.update h l c).dxValues = s.dxValues ∧ (s.update h l c).adxValue = s.adxValue) ∨
    ((s.update h l c).updateCount = s.updateCount + 1 ∧
       (s.update h l c).dxValues = s.dxValues ∧ (s.update h l c).adxValue = s.adxValue) ∨
    ((s.update h l c).updateCount = s.updateCount + 1 ∧ s.length ≤ s.updateCount ∧
       ∃ dx, (s.update h l c).dxValues = (s.dxApply dx).1 ∧
             (s.update h l c).adxValue = (s.dxApply dx).2) := by
  unfold ADX.update
  split
  · split
    · right; left; exact ⟨rfl, rfl, rfl⟩
    · rename_i huc
      have hL : s.length ≤ s.updateCount := by omega
      unfold ADX.diFinish
      split
      · right; left; exact ⟨rfl, rfl, rfl⟩
      · right; right
        exact ⟨rfl, hL, _, rfl, rfl⟩
  · left; exact ⟨rfl, rfl, rfl⟩

theorem ADX.countInv_init (L : ℕ) : (ADX.init L).CountInv := by
  constructor
  · simp [ADX.init]
  · intro hne; exact absurd rfl hne

theorem ADX.countInv_update (s : ADX) (h l c : ℚ) (hs : s.CountInv) :
    (s.update h l c).CountInv := by
  obtain ⟨h1, h2⟩ := hs
  have hlen := ADX.update_length s h l c
  rcases ADX.update_shape s h l c with ⟨hc, hd, ha⟩ | ⟨hc, hd, ha⟩ | ⟨hc, hL, dx, hd, ha⟩
  · constructor
    · rw [hc, hd, hlen]; exact h1
    · rw [ha, hc, hlen]; exact h2
  · constructor
    · rw [hc, hd, hlen]; omega
    · rw [ha, hc, hlen]; intro hne; have := h2 hne; omega
  · constructor
    · rw [hc, hd, hlen]
      have := ADX.dxApply_fst_le s dx
      omega
    · rw [ha, hc, hlen]
      intro hne
      match hv : s.adxValue with
      | some a =>
        have := h2 (by rw [hv]; exact fun hx => Option.noConfusion hx)
        omega
      | none =>
        have := ADX.dxApply_snd_none s dx hv hne
        omega

theorem ADX.update_adx_persists (s : ADX) (h l c : ℚ) (hs : s.adxValue ≠ none) :
    (s.update h l c).adxValue ≠ none := by
  rcases ADX.update_shape s h l c with ⟨_, _, ha⟩ | ⟨_, _, ha⟩ | ⟨_, _, dx, _, ha⟩
  · rw [ha]; exact hs
  · rw [ha]; exact hs
  · rw [ha]; exact ADX.dxApply_snd_some s dx hs

theorem adx_fold_countInv (bars : List (ℚ × ℚ × ℚ)) :
    ∀ s : ADX, s.CountInv → (bars.foldl adxStep s).CountInv := by
  induction bars with
  | nil => intro s hs; exact hs
  | cons b rest ih =>
    intro s hs
    exact ih _ (ADX.countInv_update s b.1 b.2.1 b.2.2 hs)

theorem adx_fold_length (bars : List (ℚ × ℚ × ℚ)) :
    ∀ s : ADX, (bars.foldl adxStep s).length = s.length := by
  induction bars with
  | nil => intro s; rfl
  | cons b rest ih =>
    intro s
    rw [List.foldl_cons, ih]
    exact ADX.update_length s b.1 b.2.1 b.2.2

theorem adx_fold_count_le (bars : List (ℚ × ℚ × ℚ)) :
    ∀ s : ADX, (bars.foldl adxStep s).updateCount ≤ s.updateCount + bars.length := by
  induction bars with
  | nil => intro s; simp
  | cons b rest ih =>
    intro s
    rw [List.foldl_cons]
    have h1 := ih (adxStep s b)
    have h2 : (adxStep s b).updateCount ≤ s.updateCount + 1 := by
      rcases ADX.update_shape s b.1 b.2.1 b.2.2 with ⟨hc, _, _⟩ | ⟨hc, _, _⟩ | ⟨hc, _, _⟩ <;>
        (unfold adxStep; omega)
    simp only [List.length_cons]
    omega

theorem adx_fold_persists (bars : List (ℚ × ℚ × ℚ)) :
    ∀ s : ADX, s.adxValue ≠ none → (bars.foldl adxStep s).adxValue ≠ none := by
  induction bars with
  | nil => intro s hs; exact hs
  | cons b rest ih =>
    intro s hs
    exact ih _ (ADX.update_adx_persists s b.1 b.2.1 b.2.2 hs)

theorem ADX.runList_eq_fold (L : ℕ) (bars : List (ℚ × ℚ × ℚ)) :
    ADX.runList L bars = bars.foldl adxStep (ADX.init L) := rfl

/-- After `n` calls the update counter is at most `n − 1` (the very first call
only stores the previous bar and does not increment the counter). -/
theorem ADX.runList_count (L : ℕ) (bars : List (ℚ × ℚ × ℚ)) :
    (ADX.runList L bars).updateCount ≤ bars.length - 1 := by
  match bars with
  | [] => simp [ADX.runList, ADX.init]
  | b :: rest =>
    rw [ADX.runList_eq_fold, List.foldl_cons]
    have hfirst : (adxStep (ADX.init L) b).updateCount = 0 := rfl
    have := adx_fold_count_le rest (adxStep (ADX.init L) b)
    simp only [List.length_cons]
    omega

/-! ### Claim C2: ADX warm-up count -/
/-- C2 (amended). For every `length ≥ 2` and every input sequence, `ADX.value`
is null for the first `2×length` calls of `ADX.update` (not `2×length+1` as
claimed), and once the value is non-null it stays non-null for every further
call; it can already be non-null at call `2×length+1` (see the
counterexample). -/
theorem c2_adx_warmup (L : ℕ) (hL : 2 ≤ L) (bars : List (ℚ × ℚ × ℚ)) :
    (∀ n, n ≤ 2 * L → (ADX.runList L (bars.take n)).value = none) ∧
    (∀ n m, n ≤ m → (ADX.runList L (bars.take n)).value ≠ none →
      (ADX.runList L (bars.take m)).value ≠ none) := by
  constructor
  · intro n hn
    by_contra hne
    have hinv := adx_fold_countInv (bars.take n) (ADX.init L) (ADX.countInv_init L)
    have hlen : (ADX.runList L (bars.take n)).length = L := by
      rw [ADX.runList_eq_fold]; exact adx_fold_length _ _
    have hcount := ADX.runList_count L (bars.take n)
    have htk : (bars.take n).length ≤ n := by
      simp
    have h2L := hinv.2 (by
      rw [ADX.runList_eq_fold, ADX.value] at hne; exact hne)
    rw [ADX.runList_eq_fold] at hlen hcount
    rw [hlen] at h2L
    omega
  · intro n m hnm hne
    have hdecomp : bars.take m = bars.take n ++ (bars.drop n).take (m - n) := by
      conv_lhs => rw [show m = n + (m - n) from by omega]
      rw [List.take_add]
    rw [ADX.runList_eq_fold, ADX.value, hdecomp, List.foldl_append]
    rw [ADX.runList_eq_fold, ADX.value] at hne
    exact adx_fold_persists ((bars.drop n).take (m - n)) _ hne

/-- Witness for `c2_adx_warmup`: instantiated at length 2 with a concrete
6-bar sequence, the value is still null after 4 = 2×2 calls, and non-nullness
persists from call 5 to call 6. -/
theorem c2_adx_warmup_witness :
    (2 ≤ 2 ∧
      (ADX.runList 2 ([((10:ℚ), (9:ℚ), (19/2:ℚ)), (11, 10, 21/2), (12, 11, 23/2),
        (13, 12, 25/2), (14, 13, 27/2), (15, 14, 29/2)].take 4)).value = none) ∧
    ((ADX.runList 2 ([((10:ℚ), (9:ℚ), (19/2:ℚ)), (11, 10, 21/2), (12, 11, 23/2),
        (13, 12, 25/2), (14, 13, 27/2), (15, 14, 29/2)].take 5)).value ≠ none →
      (ADX.runList 2 ([((10:ℚ), (9:ℚ), (19/2:ℚ)), (11, 10, 21/2), (12, 11, 23/2),
        (13, 12, 25/2), (14, 13, 27/2), (15, 14, 29/2)].take 6)).value ≠ none) :=
  ⟨⟨le_refl 2,
    (c2_adx_warmup 2 (le_refl 2) _).1 4 (by norm_num)⟩,
   (c2_adx_warmup 2 (le_refl 2) _).2 5 6 (by norm_num)⟩

set_option maxHeartbeats 2000000 in
/-- C2 counterexample: the claim says `ADX.value` is null for the first
`2×length+1` calls; with `length = 2` and a strictly rising 5-bar sequence the
value is already `100` (non-null) at call `5 = 2×2+1`. -/
theorem c2_counterexample :
    ([((10:ℚ), (9:ℚ), (19/2:ℚ)), (11, 10, 21/2), (12, 11, 23/2), (13, 12, 25/2),
      (14, 13, 27/2)] : List (ℚ × ℚ × ℚ)).length = 2 * 2 + 1 ∧
    (ADX.runList 2 [((10:ℚ), (9:ℚ), (19/2:ℚ)), (11, 10, 21/2), (12, 11, 23/2),
      (13, 12, 25/2), (14, 13, 27/2)]).value = some 100 := by
  refine ⟨rfl, ?_⟩
  norm_num [ADX.runList, ADX.value, ADX.init, ADX.update, ADX.base, ADX.diCalc,
    ADX.dxApply, ADX.diFinish, pushWindow, trueRange, plusDMcalc, minusDMcalc,
    max_def, abs_eq_max_neg]

/-! ### Claim C9: directional movement exclusivity -/
/-- C9. In `ADX.update`, for every pair of successive bars: at most one of
`+DM`/`−DM` is non-zero; a non-zero `+DM` equals the upward move of the highs
and that move strictly exceeds the downward move of the lows (and
symmetrically for `−DM`), so the larger directional move is the one that can
be non-zero; and if the highs do not move up and the lows do not move down
(inside bar), both are zero. -/
theorem c9_dm_exclusive (high low ph pl : ℚ) :
    (plusDMcalc high low ph pl = 0 ∨ minusDMcalc high low ph pl = 0) ∧
    (plusDMcalc high low ph pl ≠ 0 →
      plusDMcalc high low ph pl = high - ph ∧ pl - low < high - ph) ∧
    (minusDMcalc high low ph pl ≠ 0 →
      minusDMcalc high low ph pl = pl - low ∧ high - ph < pl - low) ∧
    (high ≤ ph → pl ≤ low →
      plusDMcalc high low ph pl = 0 ∧ minusDMcalc high low ph pl = 0) := by
  unfold plusDMcalc minusDMcalc
  refine ⟨?_, ?_, ?_, ?_⟩
  · split_ifs with h1 h2
    · exact absurd h2.1 (not_lt.mpr (le_of_lt h1.1))
    · right; rfl
    · left; rfl
    · left; rfl
  · intro hne
    split_ifs at hne with h1
    · have hgt : (0:ℚ) < high - ph := by linarith [h1.1]
      rw [if_pos h1, max_eq_left (le_of_lt hgt)]
      have h2 : pl - low < 0 := by linarith [h1.2]
      exact ⟨rfl, by linarith⟩
    · exact absurd rfl hne
  · intro hne
    split_ifs at hne with h1
    · have hgt : (0:ℚ) < pl - low := by linarith [h1.2]
      rw [if_pos h1, max_eq_left (le_of_lt hgt)]
      have h2 : high - ph < 0 := by linarith [h1.1]
      exact ⟨rfl, by linarith⟩
    · exact absurd rfl hne
  · intro hh hl
    constructor
    · rw [if_neg]; intro hc; exact absurd hc.1 (not_lt.mpr hh)
    · rw [if_neg]; intro hc; exact absurd hc.2 (not_lt.mpr hl)

/-- Witness for `c9_dm_exclusive`: an up bar (`+DM = 2`, `−DM = 0`) and an
inside bar (both zero). -/
theorem c9_dm_exclusive_witness :
    (plusDMcalc 5 4 3 2 = 5 - 3 ∧ (2:ℚ) - 4 < 5 - 3) ∧
    (plusDMcalc 3 3 4 2 = 0 ∧ minusDMcalc 3 3 4 2 = 0) :=
  ⟨(c9_dm_exclusive 5 4 3 2).2.1 (by norm_num [plusDMcalc, max_def]),
   (c9_dm_exclusive 3 3 4 2).2.2.2 (by norm_num) (by norm_num)⟩

/-! ### Claim C6: stale local view is adopted, not counted as a failure -/
/-- C6. On an authoritative refresh, if the REST view is flat while the local
view is non-flat, or the REST view is non-flat while the local view is flat,
`updateFromRest` succeeds: it returns `true`, resets the failure counter to
zero and overwrites the local state with the authoritative values. -/
theorem c6_stale_adoption (m : PositionStateManager)
    (amt entry upnl : ℚ) (now : ℤ)
    (h : (restSide amt = .flat ∧ m.state.side ≠ .flat) ∨
         (restSide amt ≠ .flat ∧ m.state.side = .flat)) :
    (m.updateFromRest amt entry upnl now).1 = true ∧
    (m.updateFromRest amt entry upnl now).2.reconciliationFailures = 0 ∧
    (m.updateFromRest amt entry upnl now).2.state.side = restSide amt ∧
    (m.updateFromRest amt entry upnl now).2.state.size = |amt| ∧
    (m.updateFromRest amt entry upnl now).2.state.avgEntry = entry ∧
    (m.updateFromRest amt entry upnl now).2.state.unrealizedPnl = upnl := by
  unfold PositionStateManager.updateFromRest
  split_ifs with h1 h2 h3
  · exact ⟨rfl, rfl, rfl, rfl, rfl, rfl⟩
  · exact ⟨rfl, rfl, rfl, rfl, rfl, rfl⟩
  · exact ⟨rfl, rfl, rfl, rfl, rfl, rfl⟩
  · rcases h with h | h
    · exact absurd h h2
    · exact absurd h h3

/-- Witness for `c6_stale_adoption`: a REST report of a flat position while
the local view holds a long of size 1. -/
theorem c6_stale_adoption_witness :
    ((PositionStateManager.mk ⟨1, .long, 100, 0, 0, none⟩ 1).updateFromRest 0 0 0 5).1 = true ∧
    ((PositionStateManager.mk ⟨1, .long, 100, 0, 0, none⟩ 1).updateFromRest 0 0 0 5).2.reconciliationFailures = 0 ∧
    ((PositionStateManager.mk ⟨1, .long, 100, 0, 0, none⟩ 1).updateFromRest 0 0 0 5).2.state.side = restSide 0 := by
  have h := c6_stale_adoption (PositionStateManager.mk ⟨1, .long, 100, 0, 0, none⟩ 1) 0 0 0 5
    (Or.inl ⟨by norm_num [restSide], by simp⟩)
  exact ⟨h.1, h.2.1, h.2.2.1⟩

/-! ### Claim C7: failure counting and the freeze threshold -/
/-- A genuine mismatch (both views non-flat, different sides) makes
`updateFromRest` fail and increment the counter, leaving the local state
untouched. -/
theorem mismatch_updateFromRest (m : PositionStateManager)
    (amt entry upnl : ℚ) (now : ℤ)
    (hrest : restSide amt ≠ .flat) (hloc : m.state.side ≠ .flat)
    (hdiff : restSide amt ≠ m.state.side) :
    m.updateFromRest amt entry upnl now =
      (false, { m with reconciliationFailures := m.reconciliationFailures + 1 }) := by
  unfold PositionStateManager.updateFromRest
  rw [if_neg, if_neg, if_neg]
  · intro hc; exact hloc hc.2
  · intro hc; exact hrest hc.1
  · unfold PositionStateManager.reconcile
    simp only
    rw [if_neg (fun hc => hrest hc.1)]
    simp [hdiff]

/-- C7. The failure counter resets exactly on success and increments exactly
on failure; a flat-against-flat refresh is a success (never an increment)
whenever the local flat size is within the reconciliation tolerance (which
holds in every reachable flat state, where the size is 0);
`shouldFreezeTrading` holds iff the counter has reached the fixed threshold 2;
resetting the counter (as the 60-second unfreeze timer does) makes it 0; and
starting from a zero counter, three consecutive genuine mismatches leave the
reconcile loop with trading frozen (the freeze deadline being set 60 s after
the report that crossed the threshold). -/
theorem c7_failure_counting :
    (∀ (m : PositionStateManager) (amt entry upnl : ℚ) (now : ℤ),
      ((m.updateFromRest amt entry upnl now).1 = true →
        (m.updateFromRest amt entry upnl now).2.reconciliationFailures = 0) ∧
      ((m.updateFromRest amt entry upnl now).1 = false →
        (m.updateFromRest amt entry upnl now).2.reconciliationFailures =
          m.reconciliationFailures + 1)) ∧
    (∀ (m : PositionStateManager) (entry upnl : ℚ) (now : ℤ),
      |m.state.size| < 1 / 10000 → m.state.side = .flat →
      (m.updateFromRest 0 entry upnl now).1 = true ∧
      (m.updateFromRest 0 entry upnl now).2.reconciliationFailures = 0) ∧
    (∀ m : PositionStateManager,
      m.shouldFreezeTrading = true ↔ 2 ≤ m.reconciliationFailures) ∧
    (∀ m : PositionStateManager,
      m.resetReconciliationFailures.reconciliationFailures = 0) ∧
    (∀ (r : ReconcileLoop) (amt1 amt2 amt3 e1 e2 e3 u1 u2 u3 : ℚ) (n1 n2 n3 : ℤ),
      r.manager.reconciliationFailures = 0 →
      r.manager.state.side ≠ .flat →
      restSide amt1 ≠ .flat → restSide amt1 ≠ r.manager.state.side →
      restSide amt2 ≠ .flat → restSide amt2 ≠ r.manager.state.side →
      restSide amt3 ≠ .flat → restSide amt3 ≠ r.manager.state.side →
      (((r.onPositionReport amt1 e1 u1 n1).onPositionReport amt2 e2 u2 n2).onPositionReport
          amt3 e3 u3 n3).tradingFrozen = true ∧
      (((r.onPositionReport amt1 e1 u1 n1).onPositionReport amt2 e2 u2 n2).onPositionReport
          amt3 e3 u3 n3).manager.reconciliationFailures = 3) := by
  refine ⟨?_, ?_, ?_, ?_, ?_⟩
  · intro m amt entry upnl now
    unfold PositionStateManager.updateFromRest
    split_ifs
    · exact ⟨fun _ => rfl, fun hc => by simp at hc⟩
    · exact ⟨fun _ => rfl, fun hc => by simp at hc⟩
    · exact ⟨fun _ => rfl, fun hc => by simp at hc⟩
    · exact ⟨fun hc => by simp at hc, fun _ => rfl⟩
  · intro m entry upnl now hsize hside
    have hflat : restSide 0 = Side.flat := by norm_num [restSide]
    have hrec : PositionStateManager.reconcile
        ⟨|(0:ℚ)|, restSide 0, entry, upnl⟩
        ⟨m.state.size, m.state.side, m.state.avgEntry, m.state.unrealizedPnl⟩ = true := by
      unfold PositionStateManager.reconcile
      rw [if_pos ⟨hflat, hside⟩]
      simp only [Bool.and_eq_true, decide_eq_true_eq]
      constructor
      · simpa using by linarith [abs_sub_comm (|(0:ℚ)|) m.state.size, hsize]
      · rw [hflat, hside]
    unfold PositionStateManager.updateFromRest
    rw [if_pos hrec]
    exact ⟨rfl, rfl⟩
  · intro m
    unfold PositionStateManager.shouldFreezeTrading maxReconciliationFailures
    simp
  · intro m; rfl
  · intro r amt1 amt2 amt3 e1 e2 e3 u1 u2 u3 n1 n2 n3 hf hside h1a h1b h2a h2b h3a h3b
    have step1 := mismatch_updateFromRest r.manager amt1 e1 u1 n1 h1a hside h1b
    have r1def : r.onPositionReport amt1 e1 u1 n1 =
        { r with manager :=
            { r.manager with reconciliationFailures := r.manager.reconciliationFailures + 1 } } := by
      unfold ReconcileLoop.onPositionReport
      rw [step1]
      simp only
      rw [if_neg (by simp)]
      rw [if_neg (by
        unfold PositionStateManager.shouldFreezeTrading maxReconciliationFailures
        simp only [decide_eq_true_eq]
        omega)]
    set r1 := r.onPositionReport amt1 e1 u1 n1 with hr1
    have hm1s : r1.manager.state = r.manager.state := by rw [r1def]
    have hm1f : r1.manager.reconciliationFailures = 1 := by rw [r1def]; simp [hf]
    have step2 := mismatch_updateFromRest r1.manager amt2 e2 u2 n2 h2a
      (by rw [hm1s]; exact hside) (by rw [hm1s]; exact h2b)
    have r2def : r1.onPositionReport amt2 e2 u2 n2 =
        { manager :=
            { r1.manager with reconciliationFailures := r1.manager.reconciliationFailures + 1 },
          tradingFrozen := true, freezeUntil := n2 + 60000 } := by
      unfold ReconcileLoop.onPositionReport
      rw [step2]
      simp only
      rw [if_neg (by simp)]
      rw [if_pos (by
        unfold PositionStateManager.shouldFreezeTrading maxReconciliationFailures
        simp only [decide_eq_true_eq]
        omega)]
    set r2 := r1.onPositionReport amt2 e2 u2 n2 with hr2
    have hm2s : r2.manager.state = r.manager.state := by rw [r2def]; exact hm1s
    have hm2f : r2.manager.reconciliationFailures = 2 := by rw [r2def]; simp [hm1f]
    have step3 := mismatch_updateFromRest r2.manager amt3 e3 u3 n3 h3a
      (by rw [hm2s]; exact hside) (by rw [hm2s]; exact h3b)
    have r3def : r2.onPositionReport amt3 e3 u3 n3 =
        { manager :=
            { r2.manager with reconciliationFailures := r2.manager.reconciliationFailures + 1 },
          tradingFrozen := true, freezeUntil := n3 + 60000 } := by
      unfold ReconcileLoop.onPositionReport
      rw [step3]
      simp only
      rw [if_neg (by simp)]
      rw [if_pos (by
        unfold PositionStateManager.shouldFreezeTrading maxReconciliationFailures
        simp only [decide_eq_true_eq]
        omega)]
    rw [r3def]
    refine ⟨rfl, ?_⟩
    simp [hm2f]

/-- Witness for `c7_failure_counting`: concrete instantiations of every
conjunct; in particular three short REST reports against a long local view
freeze trading. -/
theorem c7_failure_counting_witness :
    ((PositionStateManager.mk ⟨0, .flat, 0, 0, 0, none⟩ 0).updateFromRest 0 3 4 5).1 = true ∧
    (PositionStateManager.mk ⟨0, .flat, 0, 0, 0, none⟩ 0).shouldFreezeTrading = false ∧
    ((((ReconcileLoop.mk (PositionStateManager.mk ⟨1, .long, 100, 0, 0, none⟩ 0) false 0
        ).onPositionReport (-1) 100 0 10).onPositionReport (-1) 100 0 20).onPositionReport
        (-1) 100 0 30).tradingFrozen = true := by
  have hss : restSide (-1 : ℚ) = Side.short := by norm_num [restSide]
  refine ⟨?_, ?_, ?_⟩
  · exact (c7_failure_counting.2.1 (PositionStateManager.mk ⟨0, .flat, 0, 0, 0, none⟩ 0)
      3 4 5 (by norm_num) rfl).1
  · have h := (c7_failure_counting.2.2.1
      (PositionStateManager.mk ⟨0, .flat, 0, 0, 0, none⟩ 0))
    cases hb : (PositionStateManager.mk ⟨0, .flat, 0, 0, 0, none⟩ 0).shouldFreezeTrading
    · rfl
    · rw [hb] at h
      exact absurd (h.mp rfl) (by decide)
  · exact (c7_failure_counting.2.2.2.2
      (ReconcileLoop.mk (PositionStateManager.mk ⟨1, .long, 100, 0, 0, none⟩ 0) false 0)
      (-1) (-1) (-1) 100 100 100 0 0 0 10 20 30 rfl (by simp)
      (by rw [hss]; simp) (by rw [hss]; simp)
      (by rw [hss]; simp) (by rw [hss]; simp)
      (by rw [hss]; simp) (by rw [hss]; simp)).1

/-! ### Claim C1: emergency stop-loss -/
theorem protective_flat_inert (cfg : BotConfig) (s : BotState) (bar : SyntheticBar)
    (v2 wr : Option ℚ) (hflat : s.position.side = .flat) :
    (BotRunner.evaluateProtectiveExits cfg s bar v2 wr).closeReason = none := by
  unfold BotRunner.evaluateProtectiveExits
  match hE : s.position.entryPrice with
  | none => rfl
  | some e =>
    dsimp only
    rw [if_pos (Or.inl hflat)]

theorem protective_peach_long (cfg : BotConfig) (s : BotState) (bar : SyntheticBar)
    (v2 wr : Option ℚ) (P : ℚ)
    (hpeach : cfg.isPeachHybrid = true)
    (hside : s.position.side = .long)
    (hentry : s.position.entryPrice = some P) (hP : P ≠ 0)
    (htse : bar.endTime - jsOrZ s.position.openedAt s.lastPositionEntryTime < 30000) :
    ((BotRunner.evaluateProtectiveExits cfg s bar v2 wr).closeReason = some "emergency-stop" ↔
      bar.close ≤ P * (1 - 1 / 100)) := by
  have heff : effectiveEmergencyStop cfg = 1 := by
    unfold effectiveEmergencyStop; rw [if_pos hpeach]
  have hth : emergencyThresholdOf .long P (effectiveEmergencyStop cfg) = P * (1 - 1 / 100) := by
    rw [heff]; rfl
  unfold BotRunner.evaluateProtectiveExits
  rw [hentry]
  dsimp only
  rw [if_neg (by
    rintro (hc | hc)
    · rw [hside] at hc; exact Side.noConfusion hc
    · exact hP hc)]
  unfold protectiveBody
  rw [if_neg (fun hc => absurd hc.2.1 (by omega))]
  rw [if_neg (fun hc => absurd hc.2.1 (by omega))]
  rw [if_neg (fun hc => by rw [hpeach] at hc; exact Bool.noConfusion hc.1)]
  rw [if_neg (fun hc => by rw [hpeach] at hc; exact Bool.noConfusion hc.1)]
  rw [if_neg (fun hc => by rw [hpeach] at hc; exact Bool.noConfusion hc.1)]
  rw [if_neg (fun hc => absurd hc.2.1 (by omega))]
  rw [if_neg (fun hc => absurd hc.2.1 (by omega))]
  split_ifs with hem hsl
  · rw [hth] at hem
    rcases hem.2.2 with ⟨_, hle⟩ | ⟨hc, _⟩
    · exact iff_of_true rfl hle
    · rw [hside] at hc; exact Side.noConfusion hc
  · refine iff_of_false (fun hc => by simp at hc) ?_
    intro hle
    exact hem ⟨by rw [heff]; norm_num, Or.inl hpeach, Or.inl ⟨hside, by rw [hth]; exact hle⟩⟩
  · refine iff_of_false (fun hc => by simp at hc) ?_
    intro hle
    exact hem ⟨by rw [heff]; norm_num, Or.inl hpeach, Or.inl ⟨hside, by rw [hth]; exact hle⟩⟩

theorem protective_peach_short (cfg : BotConfig) (s : BotState) (bar : SyntheticBar)
    (v2 wr : Option ℚ) (P : ℚ)
    (hpeach : cfg.isPeachHybrid = true)
    (hside : s.position.side = .short)
    (hentry : s.position.entryPrice = some P) (hP : P ≠ 0)
    (htse : bar.endTime - jsOrZ s.position.openedAt s.lastPositionEntryTime < 30000) :
    ((BotRunner.evaluateProtectiveExits cfg s bar v2 wr).closeReason = some "emergency-stop" ↔
      P * (1 + 1 / 100) ≤ bar.close) := by
  have heff : effectiveEmergencyStop cfg = 1 := by
    unfold effectiveEmergencyStop; rw [if_pos hpeach]
  have hth : emergencyThresholdOf .short P (effectiveEmergencyStop cfg) = P * (1 + 1 / 100) := by
    rw [heff]; rfl
  unfold BotRunner.evaluateProtectiveExits
  rw [hentry]
  dsimp only
  rw [if_neg (by
    rintro (hc | hc)
    · rw [hside] at hc; exact Side.noConfusion hc
    · exact hP hc)]
  unfold protectiveBody
  rw [if_neg (fun hc => absurd hc.2.1 (by omega))]
  rw [if_neg (fun hc => absurd hc.2.1 (by omega))]
  rw [if_neg (fun hc => by rw [hpeach] at hc; exact Bool.noConfusion hc.1)]
  rw [if_neg (fun hc => by rw [hpeach] at hc; exact Bool.noConfusion hc.1)]
  rw [if_neg (fun hc => by rw [hpeach] at hc; exact Bool.noConfusion hc.1)]
  rw [if_neg (fun hc => absurd hc.2.1 (by omega))]
  rw [if_neg (fun hc => absurd hc.2.1 (by omega))]
  split_ifs with hem hsl
  · rw [hth] at hem
    rcases hem.2.2 with ⟨hc, _⟩ | ⟨_, hle⟩
    · rw [hside] at hc; exact Side.noConfusion hc
    · exact iff_of_true rfl hle
  · refine iff_of_false (fun hc => by simp at hc) ?_
    intro hle
    exact hem ⟨by rw [heff]; norm_num, Or.inl hpeach, Or.inr ⟨hside, by rw [hth]; exact hle⟩⟩
  · refine iff_of_false (fun hc => by simp at hc) ?_
    intro hle
    exact hem ⟨by rw [heff]; norm_num, Or.inl hpeach, Or.inr ⟨hside, by rw [hth]; exact hle⟩⟩

theorem protective_wm_long (cfg : BotConfig) (s : BotState) (bar : SyntheticBar)
    (v2 wr : Option ℚ) (P : ℚ)
    (hpeach : cfg.isPeachHybrid = false)
    (husl : cfg.risk.useStopLoss = true)
    (hslp : jsTruthy cfg.risk.stopLossPct = false)
    (hS : 0 < jsOrQ cfg.risk.emergencyStopLoss 2)
    (hside : s.position.side = .long)
    (hentry : s.position.entryPrice = some P) (hP : P ≠ 0)
    (htse : bar.endTime - jsOrZ s.position.openedAt s.lastPositionEntryTime < 30000) :
    ((BotRunner.evaluateProtectiveExits cfg s bar v2 wr).closeReason = some "emergency-stop" ↔
      bar.close ≤ P * (1 - jsOrQ cfg.risk.emergencyStopLoss 2 / 100)) := by
  have heff : effectiveEmergencyStop cfg = jsOrQ cfg.risk.emergencyStopLoss 2 := by
    unfold effectiveEmergencyStop; rw [if_neg (by rw [hpeach]; exact Bool.noConfusion)]
  have hth : emergencyThresholdOf .long P (effectiveEmergencyStop cfg) =
      P * (1 - jsOrQ cfg.risk.emergencyStopLoss 2 / 100) := by
    rw [heff]; rfl
  unfold BotRunner.evaluateProtectiveExits
  rw [hentry]
  dsimp only
  rw [if_neg (by
    rintro (hc | hc)
    · rw [hside] at hc; exact Side.noConfusion hc
    · exact hP hc)]
  unfold protectiveBody
  rw [if_neg (fun hc => by rw [hpeach] at hc; exact Bool.noConfusion hc.1)]
  rw [if_neg (fun hc => by rw [hpeach] at hc; exact Bool.noConfusion hc.1)]
  rw [if_neg (fun hc => by rw [hslp] at hc; exact Bool.noConfusion hc.2.2.1)]
  rw [if_neg (fun hc => absurd hc.2.2.1 (by omega))]
  rw [if_neg (fun hc => absurd hc.2.2.1 (by omega))]
  rw [if_neg (fun hc => by rw [hpeach] at hc; exact Bool.noConfusion hc.1)]
  rw [if_neg (fun hc => by rw [hpeach] at hc; exact Bool.noConfusion hc.1)]
  split_ifs with hem hsl
  · rw [hth] at hem
    rcases hem.2.2 with ⟨_, hle⟩ | ⟨hc, _⟩
    · exact iff_of_true rfl hle
    · rw [hside] at hc; exact Side.noConfusion hc
  · exact absurd hsl.1 (by rw [hslp]; exact Bool.noConfusion)
  · refine iff_of_false (fun hc => by simp at hc) ?_
    intro hle
    exact hem ⟨by rw [heff]; exact hS, Or.inr husl, Or.inl ⟨hside, by rw [hth]; exact hle⟩⟩

theorem protective_wm_short (cfg : BotConfig) (s : BotState) (bar : SyntheticBar)
    (v2 wr : Option ℚ) (P : ℚ)
    (hpeach : cfg.isPeachHybrid = false)
    (husl : cfg.risk.useStopLoss = true)
    (hslp : jsTruthy cfg.risk.stopLossPct = false)
    (hS : 0 < jsOrQ cfg.risk.emergencyStopLoss 2)
    (hside : s.position.side = .short)
    (hentry : s.position.entryPrice = some P) (hP : P ≠ 0)
    (htse : bar.endTime - jsOrZ s.position.openedAt s.lastPositionEntryTime < 30000) :
    ((BotRunner.evaluateProtectiveExits cfg s bar v2 wr).closeReason = some "emergency-stop" ↔
      P * (1 + jsOrQ cfg.risk.emergencyStopLoss 2 / 100) ≤ bar.close) := by
  have heff : effectiveEmergencyStop cfg = jsOrQ cfg.risk.emergencyStopLoss 2 := by
    unfold effectiveEmergencyStop; rw [if_neg (by rw [hpeach]; exact Bool.noConfusion)]
  have hth : emergencyThresholdOf .short P (effectiveEmergencyStop cfg) =
      P * (1 + jsOrQ cfg.risk.emergencyStopLoss 2 / 100) := by
    rw [heff]; rfl
  unfold BotRunner.evaluateProtectiveExits
  rw [hentry]
  dsimp only
  rw [if_neg (by
    rintro (hc | hc)
    · rw [hside] at hc; exact Side.noConfusion hc
    · exact hP hc)]
  unfold protectiveBody
  rw [if_neg (fun hc => by rw [hpeach] at hc; exact Bool.noConfusion hc.1)]
  rw [if_neg (fun hc => by rw [hpeach] at hc; exact Bool.noConfusion hc.1)]
  rw [if_neg (fun hc => by rw [hslp] at hc; exact Bool.noConfusion hc.2.2.1)]
  rw [if_neg (fun hc => absurd hc.2.2.1 (by omega))]
  rw [if_neg (fun hc => absurd hc.2.2.1 (by omega))]
  rw [if_neg (fun hc => by rw [hpeach] at hc; exact Bool.noConfusion hc.1)]
  rw [if_neg (fun hc => by rw [hpeach] at hc; exact Bool.noConfusion hc.1)]
  split_ifs with hem hsl
  · rw [hth] at hem
    rcases hem.2.2 with ⟨hc, _⟩ | ⟨_, hle⟩
    · rw [hside] at hc; exact Side.noConfusion hc
    · exact iff_of_true rfl hle
  · exact absurd hsl.1 (by rw [hslp]; exact Bool.noConfusion)
  · refine iff_of_false (fun hc => by simp at hc) ?_
    intro hle
    exact hem ⟨by rw [heff]; exact hS, Or.inr husl, Or.inr ⟨hside, by rw [hth]; exact hle⟩⟩

/-- C1 (amended). The protective-exit engine computes the emergency threshold
as `P·(1 − S/100)` for a long and `P·(1 + S/100)` for a short (`S` being the
fixed `1.0` for the peach-hybrid strategy and `emergencyStopLoss || 2.0` for
the watermellon strategy with `useStopLoss` enabled), and — when no earlier
protective check can fire — it closes with reason `"emergency-stop"` exactly
when the bar close reaches the threshold, equality included.  The check is
active as soon as the position is open (nothing fires while flat): contrary
to the claim it is NOT gated by the 30-second minimum-dwell guard, which
gates only the RSI and trailing exits (the statements below hold with the
dwell time strictly below 30 s). -/
theorem c1_emergency_stop :
    (∀ (cfg : BotConfig) (s : BotState) (bar : SyntheticBar) (v2 wr : Option ℚ),
      s.position.side = .flat →
      (BotRunner.evaluateProtectiveExits cfg s bar v2 wr).closeReason = none) ∧
    (∀ (cfg : BotConfig) (s : BotState) (bar : SyntheticBar) (v2 wr : Option ℚ) (P : ℚ),
      cfg.isPeachHybrid = true → s.position.side = .long →
      s.position.entryPrice = some P → P ≠ 0 →
      bar.endTime - jsOrZ s.position.openedAt s.lastPositionEntryTime < 30000 →
      ((BotRunner.evaluateProtectiveExits cfg s bar v2 wr).closeReason = some "emergency-stop" ↔
        bar.close ≤ P * (1 - 1 / 100))) ∧
    (∀ (cfg : BotConfig) (s : BotState) (bar : SyntheticBar) (v2 wr : Option ℚ) (P : ℚ),
      cfg.isPeachHybrid = true → s.position.side = .short →
      s.position.entryPrice = some P → P ≠ 0 →
      bar.endTime - jsOrZ s.position.openedAt s.lastPositionEntryTime < 30000 →
      ((BotRunner.evaluateProtectiveExits cfg s bar v2 wr).closeReason = some "emergency-stop" ↔
        P * (1 + 1 / 100) ≤ bar.close)) ∧
    (∀ (cfg : BotConfig) (s : BotState) (bar : SyntheticBar) (v2 wr : Option ℚ) (P : ℚ),
      cfg.isPeachHybrid = false → cfg.risk.useStopLoss = true →
      jsTruthy cfg.risk.stopLossPct = false → 0 < jsOrQ cfg.risk.emergencyStopLoss 2 →
      s.position.side = .long → s.position.entryPrice = some P → P ≠ 0 →
      bar.endTime - jsOrZ s.position.openedAt s.lastPositionEntryTime < 30000 →
      ((BotRunner.evaluateProtectiveExits cfg s bar v2 wr).closeReason = some "emergency-stop" ↔
        bar.close ≤ P * (1 - jsOrQ cfg.risk.emergencyStopLoss 2 / 100))) ∧
    (∀ (cfg : BotConfig) (s : BotState) (bar : SyntheticBar) (v2 wr : Option ℚ) (P : ℚ),
      cfg.isPeachHybrid = false → cfg.risk.useStopLoss = true →
      jsTruthy cfg.risk.stopLossPct = false → 0 < jsOrQ cfg.risk.emergencyStopLoss 2 →
      s.position.side = .short → s.position.entryPrice = some P → P ≠ 0 →
      bar.endTime - jsOrZ s.position.openedAt s.lastPositionEntryTime < 30000 →
      ((BotRunner.evaluateProtectiveExits cfg s bar v2 wr).closeReason = some "emergency-stop" ↔
        P * (1 + jsOrQ cfg.risk.emergencyStopLoss 2 / 100) ≤ bar.close)) :=
  ⟨fun cfg s bar v2 wr h => protective_flat_inert cfg s bar v2 wr h,
   fun cfg s bar v2 wr P h1 h2 h3 h4 h5 =>
     protective_peach_long cfg s bar v2 wr P h1 h2 h3 h4 h5,
   fun cfg s bar v2 wr P h1 h2 h3 h4 h5 =>
     protective_peach_short cfg s bar v2 wr P h1 h2 h3 h4 h5,
   fun cfg s bar v2 wr P h1 h2 h3 h4 h5 h6 h7 h8 =>
     protective_wm_long cfg s bar v2 wr P h1 h2 h3 h4 h5 h6 h7 h8,
   fun cfg s bar v2 wr P h1 h2 h3 h4 h5 h6 h7 h8 =>
     protective_wm_short cfg s bar v2 wr P h1 h2 h3 h4 h5 h6 h7 h8⟩

/-- C1 counterexample. The claim says the emergency check is active only once
the 30-second dwell guard has elapsed.  Concretely: a peach-hybrid long opened
at 100 on the very bar being evaluated (dwell time 0 < 30 s) with the bar
close exactly at the threshold `100·(1 − 1/100) = 99` is closed with reason
`"emergency-stop"`. -/
theorem c1_counterexample :
    (BotRunner.evaluateProtectiveExits
      ⟨true, ⟨100, 5, 3, none, none, false, none, false, 25⟩, 30000⟩
      ⟨⟨.long, 1, some 100, some 1000⟩, [], 1000, 0, 0, 0, some 100, none, 1000, none⟩
      ⟨970, 1000, 100, 100, 99, 99, 1⟩ (some 50) none).closeReason = some "emergency-stop" ∧
    ((1000 : ℤ) - jsOrZ (some 1000) 1000 = 0) ∧
    ((99 : ℚ) = 100 * (1 - 1 / 100)) := by
  refine ⟨?_, by norm_num [jsOrZ], by norm_num⟩
  norm_num [BotRunner.evaluateProtectiveExits, protectiveBody, jsOrZ, jsGt, jsLt,
    jsTruthy, effectiveEmergencyStop, emergencyThresholdOf, posProfitPct, updHigh,
    updLow, jsOrQ]
  rfl

/-- Witness for `c1_emergency_stop`: the peach-hybrid long part applied at a
concrete state (entry 100, dwell 0, close 99) establishes the exact-threshold
trigger, and the flat part applied to a flat state establishes inertness. -/
theorem c1_emergency_stop_witness :
    (BotRunner.evaluateProtectiveExits
      ⟨true, ⟨100, 5, 3, none, none, false, none, false, 25⟩, 30000⟩
      ⟨⟨.long, 2, some 100, some 2000⟩, [], 2000, 0, 0, 0, some 100, none, 1000, none⟩
      ⟨1970, 2000, 100, 100, 99, 99, 1⟩ (some 50) none).closeReason = some "emergency-stop" ∧
    (BotRunner.evaluateProtectiveExits
      ⟨true, ⟨100, 5, 3, none, none, false, none, false, 25⟩, 30000⟩
      ⟨⟨.flat, 0, none, none⟩, [], 0, 0, 0, 0, none, none, 1000, none⟩
      ⟨1970, 2000, 100, 100, 99, 99, 1⟩ (some 50) none).closeReason = none :=
  ⟨(c1_emergency_stop.2.1
      ⟨true, ⟨100, 5, 3, none, none, false, none, false, 25⟩, 30000⟩
      ⟨⟨.long, 2, some 100, some 2000⟩, [], 2000, 0, 0, 0, some 100, none, 1000, none⟩
      ⟨1970, 2000, 100, 100, 99, 99, 1⟩ (some 50) none 100
      rfl rfl rfl (by norm_num) (by norm_num [jsOrZ])).mpr (by norm_num),
   c1_emergency_stop.1
      ⟨true, ⟨100, 5, 3, none, none, false, none, false, 25⟩, 30000⟩
      ⟨⟨.flat, 0, none, none⟩, [], 0, 0, 0, 0, none, none, 1000, none⟩
      ⟨1970, 2000, 100, 100, 99, 99, 1⟩ (some 50) none rfl⟩

/-! ### Claim C8: reduce-only rejection on close -/
/-- C8. When the execution collaborator rejects a close with a reduce-only /
"no position to close" error (`"ReduceOnly Order is rejected"` or `"-2022"` in
the message), `closePosition` treats the close as already performed: the local
position is forced flat, the close timestamp is recorded
(`lastBar?.endTime || Date.now()`), and no error is surfaced; any other
rejection propagates unchanged. -/
theorem c8_reduce_only_close (s : BotState) (reason : String) (meta : Option CloseMeta)
    (msg : String) (now : ℤ) (hopen : s.position.side ≠ .flat) :
    (reduceOnlyRejected msg = true →
      BotRunner.closePosition s reason meta (.failure msg) now =
        .ok ({ s with lastPositionCloseTime := closeStamp s now,
                      position := ⟨.flat, 0, none, none⟩ }, [.closeCall reason])) ∧
    (reduceOnlyRejected msg = false →
      BotRunner.closePosition s reason meta (.failure msg) now = .error msg) := by
  constructor
  · intro hm
    unfold BotRunner.closePosition
    rw [if_neg hopen]
    simp only
    rw [if_pos hm]
  · intro hm
    unfold BotRunner.closePosition
    rw [if_neg hopen]
    simp only
    rw [if_neg (by simp [hm])]

/-- Witness for `c8_reduce_only_close`: a long of size 1 at entry 100; the
reduce-only rejection forces the state flat with the bar-close timestamp and
returns without an error, while a network error propagates as-is. -/
theorem c8_reduce_only_close_witness :
    (BotRunner.closePosition
      ⟨⟨.long, 1, some 100, some 500⟩, [500], 500, 0, 0, 0, some 100, none, 1000,
        some ⟨970, 1000, 100, 100, 99, 99, 1⟩⟩
      "emergency-stop" none (.failure "Order rejected: ReduceOnly Order is rejected") 7777 =
      .ok ({ position := ⟨.flat, 0, none, none⟩, flipHistory := [500],
             lastPositionEntryTime := 500, consecutiveLosses := 0, lastLossTime := 0,
             lastPositionCloseTime := 1000, highestPrice := some 100, lowestPrice := none,
             usdtBalance := 1000, lastBar := some ⟨970, 1000, 100, 100, 99, 99, 1⟩ },
           [.closeCall "emergency-stop"])) ∧
    (BotRunner.closePosition
      ⟨⟨.long, 1, some 100, some 500⟩, [500], 500, 0, 0, 0, some 100, none, 1000,
        some ⟨970, 1000, 100, 100, 99, 99, 1⟩⟩
      "emergency-stop" none (.failure "network down") 7777 = .error "network down") := by
  constructor
  · have h := (c8_reduce_only_close
      ⟨⟨.long, 1, some 100, some 500⟩, [500], 500, 0, 0, 0, some 100, none, 1000,
        some ⟨970, 1000, 100, 100, 99, 99, 1⟩⟩
      "emergency-stop" none "Order rejected: ReduceOnly Order is rejected" 7777
      (by simp)).1 (by decide)
    rw [h]
    norm_num [closeStamp, jsOrZ]
  · exact (c8_reduce_only_close
      ⟨⟨.long, 1, some 100, some 500⟩, [500], 500, 0, 0, 0, some 100, none, 1000,
        some ⟨970, 1000, 100, 100, 99, 99, 1⟩⟩
      "emergency-stop" none "network down" 7777 (by simp)).2 (by decide)

/-! ### Claim C5: consecutive-loss cooldown -/
theorem applyEntry_skip_not_cooldown (cfg : BotConfig) (s : BotState) (dir : Dir)
    (order : TradeInstruction) (bar : SyntheticBar) (now : ℤ)
    (closeExec enterExec : ExecResult) (r : ApplyResult)
    (h : BotRunner.applyEntry cfg s dir order bar now closeExec enterExec = .ok r) :
    r.skipReason ≠ some "2 consecutive losses" := by
  unfold BotRunner.applyEntry at h
  split_ifs at h
  · cases h; simp
  · cases h; simp
  · cases h; simp
  · cases h; simp
  · split at h
    · exact Except.noConfusion h
    · split at h
      · exact Except.noConfusion h
      · cases h; simp
  · dsimp only at h
    split at h
    · exact Except.noConfusion h
    · cases h; simp

theorem afterCooldown_skip_not_cooldown (cfg : BotConfig) (pi : PeachIndicatorInputs)
    (s : BotState) (sig : StrategySignalInfo) (bar : SyntheticBar) (now : ℤ)
    (closeExec enterExec : ExecResult) (r : ApplyResult)
    (h : BotRunner.applySignalAfterCooldown cfg pi s sig bar now closeExec enterExec = .ok r) :
    r.skipReason ≠ some "2 consecutive losses" := by
  unfold BotRunner.applySignalAfterCooldown at h
  split_ifs at h
  · revert h
    unfold BotRunner.peachGate
    split_ifs <;> intro h
    · cases h; simp
    · cases h; simp
    · cases h; simp
    · cases h; simp
    · exact applyEntry_skip_not_cooldown cfg s sig.type _ bar now closeExec enterExec r h
  · exact applyEntry_skip_not_cooldown cfg s sig.type _ bar now closeExec enterExec r h

/-- C5. The consecutive-loss cooldown: (a) with at least 2 consecutive losing
closes and less than 1 hour since the most recent loss, `applySignal` skips
the signal with the cooldown reason and changes nothing; (b) once the hour
has elapsed the counter resets — the call behaves exactly like the call on
the state with the counter zeroed — and no such run can produce the cooldown
skip reason again; (c) a successful close increments the counter (and stamps
the loss time) exactly when the close is at a loss, and resets it to zero
otherwise. -/
theorem c5_loss_cooldown :
    (∀ (cfg : BotConfig) (pi : PeachIndicatorInputs) (s : BotState)
        (sig : StrategySignalInfo) (bar : SyntheticBar) (now : ℤ)
        (closeExec enterExec : ExecResult),
      2 ≤ s.consecutiveLosses → now - s.lastLossTime < 3600000 →
      BotRunner.applySignal cfg pi s sig bar now closeExec enterExec =
        .ok ⟨false, s, [], some "2 consecutive losses"⟩) ∧
    (∀ (cfg : BotConfig) (pi : PeachIndicatorInputs) (s : BotState)
        (sig : StrategySignalInfo) (bar : SyntheticBar) (now : ℤ)
        (closeExec enterExec : ExecResult),
      2 ≤ s.consecutiveLosses → ¬(now - s.lastLossTime < 3600000) →
      BotRunner.applySignal cfg pi s sig bar now closeExec enterExec =
        BotRunner.applySignal cfg pi { s with consecutiveLosses := 0 } sig bar now
          closeExec enterExec ∧
      (∀ r : ApplyResult,
        BotRunner.applySignal cfg pi s sig bar now closeExec enterExec = .ok r →
        r.skipReason ≠ some "2 consecutive losses")) ∧
    (∀ (s : BotState) (reason : String) (meta : Option CloseMeta) (now : ℤ),
      s.position.side ≠ .flat →
      BotRunner.closePosition s reason meta .success now =
        .ok (BotRunner.closeBookkeeping s (exitPriceOf meta s.position) now,
             [.closeCall reason]) ∧
      (closeProfitPct s.position (exitPriceOf meta s.position) < 0 →
        (BotRunner.closeBookkeeping s (exitPriceOf meta s.position) now).consecutiveLosses =
            s.consecutiveLosses + 1 ∧
        (BotRunner.closeBookkeeping s (exitPriceOf meta s.position) now).lastLossTime = now) ∧
      (¬closeProfitPct s.position (exitPriceOf meta s.position) < 0 →
        (BotRunner.closeBookkeeping s (exitPriceOf meta s.position) now).consecutiveLosses = 0)) := by
  refine ⟨?_, ?_, ?_⟩
  · intro cfg pi s sig bar now cE eE h2 hlt
    unfold BotRunner.applySignal
    rw [if_pos ⟨h2, hlt⟩]
  · intro cfg pi s sig bar now cE eE h2 hge
    have hmain : BotRunner.applySignal cfg pi s sig bar now cE eE =
        BotRunner.applySignal cfg pi { s with consecutiveLosses := 0 } sig bar now cE eE := by
      unfold BotRunner.applySignal
      rw [if_neg (fun hc => hge hc.2), if_pos h2]
      rw [if_neg (by simp), if_neg (by simp)]
    refine ⟨hmain, ?_⟩
    intro r hr
    rw [hmain] at hr
    unfold BotRunner.applySignal at hr
    rw [if_neg (by simp), if_neg (by simp)] at hr
    exact afterCooldown_skip_not_cooldown cfg pi _ sig bar now cE eE r hr
  · intro s reason meta now hopen
    refine ⟨?_, ?_, ?_⟩
    · unfold BotRunner.closePosition
      rw [if_neg hopen]
    · intro hloss
      unfold BotRunner.closeBookkeeping
      rw [if_pos hloss]
      exact ⟨rfl, rfl⟩
    · intro hprof
      unfold BotRunner.closeBookkeeping
      rw [if_neg hprof]

/-- Witness for `c5_loss_cooldown`: with 2 consecutive losses recorded at
time 0 and a signal at `now = 1000` (inside the hour) the signal is skipped
with the cooldown reason; the same signal at `now = 3600000` (exactly one
hour) behaves like the call with the counter reset; and a losing close at
90 against entry 100 increments the counter. -/
theorem c5_loss_cooldown_witness :
    (BotRunner.applySignal ⟨false, ⟨100, 5, 3, none, none, false, none, false, 25⟩, 30000⟩
      ⟨none, none, none, none, none⟩
      ⟨⟨.flat, 0, none, none⟩, [], 0, 2, 0, 0, none, none, 1000, none⟩
      ⟨.long, "long-trigger"⟩ ⟨970, 1000, 100, 100, 99, 100, 1⟩ 1000 .success .success =
      .ok ⟨false, ⟨⟨.flat, 0, none, none⟩, [], 0, 2, 0, 0, none, none, 1000, none⟩, [],
           some "2 consecutive losses"⟩) ∧
    (BotRunner.applySignal ⟨false, ⟨100, 5, 3, none, none, false, none, false, 25⟩, 30000⟩
      ⟨none, none, none, none, none⟩
      ⟨⟨.flat, 0, none, none⟩, [], 0, 2, 0, 0, none, none, 1000, none⟩
      ⟨.long, "long-trigger"⟩ ⟨970, 1000, 100, 100, 99, 100, 1⟩ 3600000 .success .success =
      BotRunner.applySignal ⟨false, ⟨100, 5, 3, none, none, false, none, false, 25⟩, 30000⟩
      ⟨none, none, none, none, none⟩
      ⟨⟨.flat, 0, none, none⟩, [], 0, 0, 0, 0, none, none, 1000, none⟩
      ⟨.long, "long-trigger"⟩ ⟨970, 1000, 100, 100, 99, 100, 1⟩ 3600000 .success .success) ∧
    ((BotRunner.closeBookkeeping
        ⟨⟨.long, 1, some 100, some 0⟩, [], 0, 1, 0, 0, some 100, none, 1000, none⟩
        (exitPriceOf (some ⟨some 90, none⟩)
          (⟨⟨.long, 1, some 100, some 0⟩, [], 0, 1, 0, 0, some 100, none, 1000, none⟩ :
            BotState).position) 555).consecutiveLosses = 2) := by
  refine ⟨?_, ?_, ?_⟩
  · exact c5_loss_cooldown.1 _ _ _ _ _ _ _ _ (by norm_num) (by norm_num)
  · exact (c5_loss_cooldown.2.1 _ _ _ _ _ 3600000 _ _ (by norm_num) (by norm_num)).1
  · exact ((c5_loss_cooldown.2.2
        ⟨⟨.long, 1, some 100, some 0⟩, [], 0, 1, 0, 0, some 100, none, 1000, none⟩
        "emergency-stop" (some ⟨some 90, none⟩) 555 (by simp)).2.1
      (by norm_num [closeProfitPct, exitPriceOf])).1

theorem closePosition_calls (s : BotState) (reason : String) (meta : Option CloseMeta)
    (exec : ExecResult) (now : ℤ) (s' : BotState) (calls : List ExecCall)
    (h : BotRunner.closePosition s reason meta exec now = .ok (s', calls)) :
    ∀ c ∈ calls, entrySize c = none := by
  unfold BotRunner.closePosition at h
  split_ifs at h
  · cases h; intro c hc; exact absurd hc (List.not_mem_nil c)
  · split at h
    · split_ifs at h
      · cases h; intro c hc
        rw [List.mem_singleton] at hc
        subst hc; rfl
    · cases h; intro c hc
      rw [List.mem_singleton] at hc
      subst hc; rfl

theorem enterPosition_calls (s : BotState) (dir : Dir) (order : TradeInstruction)
    (exec : ExecResult) (s' : BotState) (calls : List ExecCall)
    (h : BotRunner.enterPosition s dir order exec = .ok (s', calls)) :
    ∀ c ∈ calls, entrySize c = some order.size := by
  have hcall : entrySize (execCallOf dir order) = some order.size := by
    cases dir <;> rfl
  unfold BotRunner.enterPosition at h
  by_cases hb : s.usdtBalance < order.size / order.leverage
  · rw [if_pos hb] at h
    cases h; intro c hc; exact absurd hc (List.not_mem_nil c)
  · rw [if_neg hb] at h
    cases exec with
    | failure msg =>
      dsimp only at h
      split_ifs at h
      · cases h; intro c hc
        rw [List.mem_singleton] at hc
        subst hc; exact hcall
    | success =>
      dsimp only at h
      cases h; intro c hc
      rw [List.mem_singleton] at hc
      subst hc; exact hcall

theorem applyEntry_calls (cfg : BotConfig) (s : BotState) (dir : Dir)
    (order : TradeInstruction) (bar : SyntheticBar) (now : ℤ)
    (closeExec enterExec : ExecResult) (r : ApplyResult)
    (h : BotRunner.applyEntry cfg s dir order bar now closeExec enterExec = .ok r) :
    ∀ c ∈ r.calls, entrySize c = none ∨ entrySize c = some order.size := by
  unfold BotRunner.applyEntry at h
  split_ifs at h
  · cases h; intro c hc; exact absurd hc (List.not_mem_nil c)
  · cases h; intro c hc; exact absurd hc (List.not_mem_nil c)
  · cases h; intro c hc; exact absurd hc (List.not_mem_nil c)
  · cases h; intro c hc; exact absurd hc (List.not_mem_nil c)
  · rename_i hopp _
    split at h
    · exact Except.noConfusion h
    · rename_i res1 hres1
      split at h
      · exact Except.noConfusion h
      · rename_i res2 hres2
        cases h
        intro c hc
        rcases List.mem_append.mp hc with hc1 | hc2
        · exact Or.inl (closePosition_calls _ _ _ _ _ _ _ hres1 c hc1)
        · exact Or.inr (enterPosition_calls _ _ _ _ _ _ hres2 c hc2)
  · dsimp only at h
    split at h
    · exact Except.noConfusion h
    · rename_i res2 hres2
      cases h
      intro c hc
      rcases List.mem_append.mp hc with hc1 | hc2
      · exact absurd hc1 (List.not_mem_nil c)
      · exact Or.inr (enterPosition_calls _ _ _ _ _ _ hres2 c hc2)

/-- C10. Every order the admission path submits to the execution collaborator
has size exactly `max(maxPositionSize, 1)`: the order built by `applySignal`
has that size, the size is 1 whenever `maxPositionSize < 1` (exceeding the
configured maximum), and every adapter call produced by a completed
`applySignal` is either a close or carries exactly that size. -/
theorem c10_order_size :
    (∀ (risk : RiskConfig) (sig : StrategySignalInfo) (bar : SyntheticBar),
      (BotRunner.mkOrder risk sig bar).size = max risk.maxPositionSize 1) ∧
    (∀ risk : RiskConfig, risk.maxPositionSize < 1 → max risk.maxPositionSize 1 = 1) ∧
    (∀ (cfg : BotConfig) (pi : PeachIndicatorInputs) (s : BotState)
        (sig : StrategySignalInfo) (bar : SyntheticBar) (now : ℤ)
        (closeExec enterExec : ExecResult) (r : ApplyResult),
      BotRunner.applySignal cfg pi s sig bar now closeExec enterExec = .ok r →
      ∀ c ∈ r.calls, entrySize c = none ∨
        entrySize c = some (max cfg.risk.maxPositionSize 1)) := by
  refine ⟨fun _ _ _ => rfl, fun risk h => max_eq_right (le_of_lt h), ?_⟩
  intro cfg pi s sig bar now cE eE r h
  unfold BotRunner.applySignal at h
  split_ifs at h
  · cases h; intro c hc; exact absurd hc (List.not_mem_nil c)
  all_goals {
    unfold BotRunner.applySignalAfterCooldown at h
    split_ifs at h
    · split at h
      · cases h; intro c hc; exact absurd hc (List.not_mem_nil c)
      · exact applyEntry_calls _ _ _ _ _ _ _ _ _ h
    · exact applyEntry_calls _ _ _ _ _ _ _ _ _ h
  }

/-- Witness for `c10_order_size`: with `maxPositionSize = 1/2` a long signal
from flat is submitted with order size `max(1/2, 1) = 1 > 1/2`. -/
theorem c10_order_size_witness :
    ((BotRunner.mkOrder ⟨1/2, 5, 3, none, none, false, none, false, 25⟩
        ⟨.long, "long-trigger"⟩ ⟨970, 1000, 100, 100, 99, 100, 1⟩).size =
      max (1/2 : ℚ) 1) ∧
    (max (1/2 : ℚ) 1 = 1) ∧
    (entrySize (.enterLong ⟨.long, 1, 5, 100, "long-trigger", 1000⟩) = none ∨
      entrySize (.enterLong ⟨.long, 1, 5, 100, "long-trigger", 1000⟩) =
        some (max (1/2 : ℚ) 1)) := by
  have hrun : BotRunner.applySignal
      ⟨false, ⟨1/2, 5, 3, none, none, false, none, false, 25⟩, 30000⟩
      ⟨none, none, none, none, none⟩
      ⟨⟨.flat, 0, none, none⟩, [], 0, 0, 0, 0, none, none, 1000, none⟩
      ⟨.long, "long-trigger"⟩ ⟨970, 1000, 100, 100, 99, 100, 1⟩ 1000 .success .success =
      .ok ⟨true, ⟨⟨.long, 1, some 100, some 1000⟩, [1000], 1000, 0, 0, 0, some 100, none,
        1000, none⟩, [.enterLong ⟨.long, 1, 5, 100, "long-trigger", 1000⟩], none⟩ := by
    norm_num [BotRunner.applySignal, BotRunner.applySignalAfterCooldown,
      BotRunner.applyEntry, BotRunner.enterPosition, BotRunner.closePosition,
      BotRunner.canFlip, BotRunner.pruneFlips, BotRunner.mkOrder, execCallOf,
      Dir.toSide, Dir.opp, max_def]
    rfl
  refine ⟨c10_order_size.1 _ _ _,
    c10_order_size.2.1 ⟨1/2, 5, 3, none, none, false, none, false, 25⟩ (by norm_num), ?_⟩
  exact c10_order_size.2.2 _ _ _ _ _ _ _ _ _ hrun
    (.enterLong ⟨.long, 1, 5, 100, "long-trigger", 1000⟩) (by simp)

theorem applyEntry_applied_flips (cfg : BotConfig) (s : BotState) (dir : Dir)
    (order : TradeInstruction) (bar : SyntheticBar) (now : ℤ)
    (closeExec enterExec : ExecResult) (r : ApplyResult)
    (h : BotRunner.applyEntry cfg s dir order bar now closeExec enterExec = .ok r)
    (happ : r.applied = true) :
    (BotRunner.pruneFlips s.flipHistory bar.endTime).length < cfg.risk.maxFlipsPerHour := by
  have key : ∀ hcf : ¬BotRunner.canFlip s.flipHistory bar.endTime cfg.risk.maxFlipsPerHour = false,
      (BotRunner.pruneFlips s.flipHistory bar.endTime).length < cfg.risk.maxFlipsPerHour := by
    intro hcf
    have : BotRunner.canFlip s.flipHistory bar.endTime cfg.risk.maxFlipsPerHour = true :=
      eq_true_of_ne_false hcf
    unfold BotRunner.canFlip at this
    exact of_decide_eq_true this
  unfold BotRunner.applyEntry at h
  split_ifs at h
  · cases h; exact Bool.noConfusion happ
  · cases h; exact Bool.noConfusion happ
  · cases h; exact Bool.noConfusion happ
  · cases h; exact Bool.noConfusion happ
  · rename_i h1 h2 hcf h4 h5
    exact key hcf
  · rename_i h1 h2 hcf h4 h5
    exact key hcf

/-- C3. The flip budget: (a) in every state, whenever `applySignal` applies an
entry, strictly fewer than `maxFlipsPerHour` flip timestamps lay in the
trailing hour before it (the gate otherwise skips with the flip-budget
reason); (b) with `maxFlipsPerHour = 3`, four otherwise-valid
opposite-direction signals 10 minutes apart produce exactly 3 applied
entries/flips and the fourth is rejected with reason
`"Flip budget exhausted"`. -/
theorem c3_flip_budget :
    (∀ (cfg : BotConfig) (pi : PeachIndicatorInputs) (s : BotState)
        (sig : StrategySignalInfo) (bar : SyntheticBar) (now : ℤ)
        (closeExec enterExec : ExecResult) (r : ApplyResult),
      BotRunner.applySignal cfg pi s sig bar now closeExec enterExec = .ok r →
      r.applied = true →
      (s.flipHistory.filter
        (fun t => decide (bar.endTime - HOUR_MS ≤ t))).length < cfg.risk.maxFlipsPerHour) ∧
    (BotRunner.applySignal c3cfg noPeachInputs c3in1 ⟨.long, "long-trigger"⟩
        (scenarioBar 600000) 600000 .success .success =
      .ok ⟨true, c3out1, [.enterLong ⟨.long, 100, 5, 100, "long-trigger", 600000⟩], none⟩) ∧
    (BotRunner.applySignal c3cfg noPeachInputs c3in2 ⟨.short, "short-trigger"⟩
        (scenarioBar 1200000) 1200000 .success .success =
      .ok ⟨true, c3out2, [.closeCall "flip-short",
        .enterShort ⟨.short, 100, 5, 100, "short-trigger", 1200000⟩], none⟩) ∧
    (BotRunner.applySignal c3cfg noPeachInputs c3in3 ⟨.long, "long-trigger"⟩
        (scenarioBar 1800000) 1800000 .success .success =
      .ok ⟨true, c3out3, [.closeCall "flip-long",
        .enterLong ⟨.long, 100, 5, 100, "long-trigger", 1800000⟩], none⟩) ∧
    (BotRunner.applySignal c3cfg noPeachInputs c3in4 ⟨.short, "short-trigger"⟩
        (scenarioBar 2400000) 2400000 .success .success =
      .ok ⟨false, c3in4, [], some "Flip budget exhausted"⟩) := by
  refine ⟨?_, ?_, ?_, ?_, ?_⟩
  · intro cfg pi s sig bar now cE eE r h happ
    have hpr : BotRunner.pruneFlips s.flipHistory bar.endTime =
        s.flipHistory.filter (fun t => decide (bar.endTime - HOUR_MS ≤ t)) := rfl
    rw [← hpr]
    unfold BotRunner.applySignal at h
    split_ifs at h
    · cases h; exact Bool.noConfusion happ
    all_goals {
      unfold BotRunner.applySignalAfterCooldown at h
      split_ifs at h
      · split at h
        · cases h; exact Bool.noConfusion happ
        · have hx := applyEntry_applied_flips _ _ _ _ _ _ _ _ _ h happ
          exact hx
      · have hx := applyEntry_applied_flips _ _ _ _ _ _ _ _ _ h happ
        exact hx
    }
  · norm_num [BotRunner.applySignal, BotRunner.applySignalAfterCooldown,
      BotRunner.applyEntry, BotRunner.enterPosition, BotRunner.closePosition,
      BotRunner.canFlip, BotRunner.pruneFlips, BotRunner.mkOrder, execCallOf,
      Dir.toSide, Dir.opp, max_def, c3cfg, c3in1, c3out1, scenarioBar, minHoldTimeMs,
      HOUR_MS]
    rfl
  · norm_num [BotRunner.applySignal, BotRunner.applySignalAfterCooldown,
      BotRunner.applyEntry, BotRunner.enterPosition, BotRunner.closePosition,
      BotRunner.closeBookkeeping, closeProfitPct, exitPriceOf, closeStamp, jsOrZ,
      jsOrQ, flipReason, BotRunner.canFlip, BotRunner.pruneFlips, BotRunner.mkOrder,
      execCallOf, Dir.toSide, Dir.opp, max_def, c3cfg, c3in2, c3out1, c3out2,
      scenarioBar, minHoldTimeMs, HOUR_MS]
    rfl
  · norm_num [BotRunner.applySignal, BotRunner.applySignalAfterCooldown,
      BotRunner.applyEntry, BotRunner.enterPosition, BotRunner.closePosition,
      BotRunner.closeBookkeeping, closeProfitPct, exitPriceOf, closeStamp, jsOrZ,
      jsOrQ, flipReason, BotRunner.canFlip, BotRunner.pruneFlips, BotRunner.mkOrder,
      execCallOf, Dir.toSide, Dir.opp, max_def, c3cfg, c3in3, c3out2, c3out3,
      scenarioBar, minHoldTimeMs, HOUR_MS]
    rfl
  · norm_num [BotRunner.applySignal, BotRunner.applySignalAfterCooldown,
      BotRunner.applyEntry, BotRunner.enterPosition, BotRunner.closePosition,
      BotRunner.canFlip, BotRunner.pruneFlips, BotRunner.mkOrder, execCallOf,
      Dir.toSide, Dir.opp, max_def, c3cfg, c3in4, c3out3, scenarioBar,
      minHoldTimeMs, HOUR_MS]
    intro hc
    exact absurd hc (by decide)

/-- Witness for `c3_flip_budget`: the invariant applied to the first scenario
step — before it, zero flip timestamps lay in the trailing hour, below the
budget of 3. -/
theorem c3_flip_budget_witness :
    (c3in1.flipHistory.filter
      (fun t => decide ((scenarioBar 600000).endTime - HOUR_MS ≤ t))).length <
      c3cfg.risk.maxFlipsPerHour :=
  c3_flip_budget.1 c3cfg noPeachInputs c3in1 ⟨.long, "long-trigger"⟩
    (scenarioBar 600000) 600000 .success .success
    ⟨true, c3out1, [.enterLong ⟨.long, 100, 5, 100, "long-trigger", 600000⟩], none⟩
    c3_flip_budget.2.1 rfl

theorem wmLongLook_not_short (cfg : WatermellonConfig) (v : WmValues)
    (h : wmLongLook cfg v = true) : wmShortLook cfg v = false := by
  unfold wmLongLook at h
  unfold wmShortLook
  simp only [Bool.and_eq_true, decide_eq_true_eq] at h
  simp only [Bool.and_eq_false_iff, decide_eq_false_iff_not]
  left; left; left
  exact not_lt.mpr (le_of_lt h.1.1.1)

theorem wmStep_look_sets (cfg : WatermellonConfig) (st : WmState) (v : WmValues)
    (hg : wmGatePass cfg v = true) (hl : wmLongLook cfg v = true) :
    (wmStep cfg st v).1.lastLongLook = true := by
  unfold wmStep
  rw [if_neg (by rw [hg]; exact Bool.noConfusion)]
  split_ifs <;> (dsimp only; exact hl)

theorem wmStep_no_retrigger (cfg : WatermellonConfig) (st : WmState) (v : WmValues)
    (hg : wmGatePass cfg v = true) (hl : wmLongLook cfg v = true)
    (hst : st.lastLongLook = true) :
    (wmStep cfg st v).2 = none ∧ (wmStep cfg st v).1.lastLongLook = true := by
  refine ⟨?_, wmStep_look_sets cfg st v hg hl⟩
  unfold wmStep
  rw [if_neg (by rw [hg]; exact Bool.noConfusion)]
  rw [if_neg (by rw [hst]; simp)]
  rw [if_neg (by rw [wmLongLook_not_short cfg v hl]; simp)]

theorem wmRun_all_none (cfg : WatermellonConfig) (vs : List WmValues)
    (hv : ∀ v ∈ vs, wmGatePass cfg v = true ∧ wmLongLook cfg v = true) :
    ∀ st : WmState, st.lastLongLook = true →
      ∀ i, (wmRunOutputs cfg st vs).getD i none = none := by
  induction vs with
  | nil => intro st _ i; cases i <;> rfl
  | cons v rest ih =>
    intro st hst i
    obtain ⟨hg, hl⟩ := hv v (List.mem_cons_self v rest)
    have hstep := wmStep_no_retrigger cfg st v hg hl hst
    match i with
    | 0 => simpa [wmRunOutputs] using hstep.1
    | Nat.succ j =>
      have := ih (fun w hw => hv w (List.mem_cons_of_mem v hw)) (wmStep cfg st v).1 hstep.2 j
      simpa [wmRunOutputs] using this

/-- C4 (amended). Edge-triggering holds only for the updates that reach the
trigger evaluation:
(a) Watermellon: over any run of bars on which the ADX gate passes and the
long-look condition holds, no long signal is emitted after the first bar of
the run, and (b) the first bar emits the long signal when the stored
look-state is clear — so a constant gated bullish stack yields exactly one
long signal; (c) the Peach V1 system can emit a `v1-long` (resp. `v1-short`)
only when the stored look-state is false, and (d) an update on which the V1
look holds and the spacing/price-move suppressions pass records the
look-state — but a suppressed look-bar records nothing, so the signal can
fire later than the first bar of a look-run (see the counterexample). -/
theorem c4_edge_trigger :
    (∀ (cfg : WatermellonConfig) (st : WmState) (vs : List WmValues),
      (∀ v ∈ vs, wmGatePass cfg v = true ∧ wmLongLook cfg v = true) →
      ∀ i, 0 < i → (wmRunOutputs cfg st vs).getD i none = none) ∧
    (∀ (cfg : WatermellonConfig) (st : WmState) (v : WmValues) (vs : List WmValues),
      wmGatePass cfg v = true → wmLongLook cfg v = true → st.lastLongLook = false →
      (wmRunOutputs cfg st (v :: vs)).getD 0 none = some ⟨.long, "long-trigger"⟩) ∧
    (∀ (e : PeachHybridEngine) (price f m s mf ms : ℚ) (rsi : Option ℚ),
      ((e.checkV1System price f m s mf ms rsi).2 = some ⟨.long, "v1-long"⟩ →
        e.v1LastLongLook = false) ∧
      ((e.checkV1System price f m s mf ms rsi).2 = some ⟨.short, "v1-short"⟩ →
        e.v1LastShortLook = false)) ∧
    (∀ (e : PeachHybridEngine) (price f m s mf ms : ℚ) (r : ℚ),
      ¬e.v1BarsSinceLastSignal < e.config.v1.minBarsBetween →
      v1PriceMoveMet e price = true →
      peachV1LongLook e.config.v1 f m s mf ms (some r) = true →
      (e.checkV1System price f m s mf ms (some r)).1.v1LastLongLook = true) := by
  refine ⟨?_, ?_, ?_, ?_⟩
  · intro cfg st vs hv i hi
    match vs, i with
    | [], i => cases i <;> rfl
    | v :: rest, Nat.succ j =>
      obtain ⟨hg, hl⟩ := hv v (List.mem_cons_self v rest)
      have hset := wmStep_look_sets cfg st v hg hl
      have := wmRun_all_none cfg rest
        (fun w hw => hv w (List.mem_cons_of_mem v hw)) (wmStep cfg st v).1 hset j
      simpa [wmRunOutputs] using this
  · intro cfg st v vs hg hl hst
    have : (wmStep cfg st v).2 = some ⟨.long, "long-trigger"⟩ := by
      unfold wmStep
      rw [if_neg (by rw [hg]; exact Bool.noConfusion)]
      rw [if_pos (by rw [hl, hst]; rfl)]
    simpa [wmRunOutputs] using this
  · intro e price f m s mf ms rsi
    constructor
    · intro h
      unfold PeachHybridEngine.checkV1System at h
      match rsi with
      | none => exact Option.noConfusion h
      | some r =>
        dsimp only at h
        by_cases hb : e.v1BarsSinceLastSignal < e.config.v1.minBarsBetween
        · rw [if_pos hb] at h; exact Option.noConfusion h
        · rw [if_neg hb] at h
          by_cases hm : v1PriceMoveMet e price = false
          · rw [if_pos hm] at h; exact Option.noConfusion h
          · rw [if_neg hm] at h
            unfold PeachHybridEngine.v1Apply at h
            split_ifs at h with h1 h2
            · rcases Bool.and_eq_true _ _ |>.mp h1 with ⟨_, hn⟩
              simpa using hn
            · simp at h
    · intro h
      unfold PeachHybridEngine.checkV1System at h
      match rsi with
      | none => exact Option.noConfusion h
      | some r =>
        dsimp only at h
        by_cases hb : e.v1BarsSinceLastSignal < e.config.v1.minBarsBetween
        · rw [if_pos hb] at h; exact Option.noConfusion h
        · rw [if_neg hb] at h
          by_cases hm : v1PriceMoveMet e price = false
          · rw [if_pos hm] at h; exact Option.noConfusion h
          · rw [if_neg hm] at h
            unfold PeachHybridEngine.v1Apply at h
            split_ifs at h with h1 h2
            · simp at h
            · rcases Bool.and_eq_true _ _ |>.mp h2 with ⟨_, hn⟩
              simpa using hn
  · intro e price f m s mf ms r hbars hmove hlook
    unfold PeachHybridEngine.checkV1System
    dsimp only
    rw [if_neg hbars, if_neg (by rw [hmove]; exact Bool.noConfusion)]
    unfold PeachHybridEngine.v1Apply
    split_ifs <;> (dsimp only; exact hlook)

/-- Witness for C4: a one-bar gated bullish Watermellon run emits the long
trigger at index 0 and nothing after it, and a concrete Peach V1 engine past
the suppressions has clear look-state and records it on the look bar. -/
theorem c4_edge_trigger_witness :
    (wmRunOutputs c4wcfg ⟨false, false⟩ [c4wv]).getD 1 none = none ∧
    (wmRunOutputs c4wcfg ⟨false, false⟩ [c4wv]).getD 0 none = some ⟨.long, "long-trigger"⟩ ∧
    c4pe.v1LastLongLook = false ∧
    (c4pe.checkV1System 10 3 2 1 2 1 (some 60)).1.v1LastLongLook = true := by
  have hg : wmGatePass c4wcfg c4wv = true := by norm_num [wmGatePass, c4wcfg, c4wv]
  have hl : wmLongLook c4wcfg c4wv = true := by norm_num [wmLongLook, c4wcfg, c4wv, jsGt]
  refine ⟨?_, ?_, ?_, ?_⟩
  · exact c4_edge_trigger.1 c4wcfg ⟨false, false⟩ [c4wv]
      (by intro v hv; rw [List.mem_singleton] at hv; subst hv; exact ⟨hg, hl⟩) 1 (by norm_num)
  · exact c4_edge_trigger.2.1 c4wcfg ⟨false, false⟩ c4wv [] hg hl rfl
  · refine (c4_edge_trigger.2.2.1 c4pe 10 3 2 1 2 1 (some 60)).1 ?_
    norm_num [c4pe, PeachHybridEngine.checkV1System, PeachHybridEngine.v1Apply,
      PeachHybridEngine.init, c4cfg, v1PriceMoveMet, peachV1LongLook, peachV1ShortLook,
      jsGt, jsLt]
  · exact c4_edge_trigger.2.2.2 c4pe 10 3 2 1 2 1 60
      (by norm_num [c4pe, PeachHybridEngine.init, c4cfg])
      (by norm_num [v1PriceMoveMet, c4pe, PeachHybridEngine.init, c4cfg])
      (by norm_num [peachV1LongLook, c4pe, PeachHybridEngine.init, c4cfg, jsGt])

set_option maxHeartbeats 4000000 in
/-- Counterexample to C4 as stated: with `minBarsBetween = 4` the V1 long
look holds on bars 3 and 4 of the run (RSI is still null on bars 1-2), the
engine emits nothing on bar 3 (spacing suppression returns before the
look-state is recorded) and then emits `v1-long` on bar 4 - the second bar
of the look-run, not the first. -/
theorem c4_counterexample :
    peachV1LongLook c4cfg.v1 c4vals3.v1EmaFast c4vals3.v1EmaMid c4vals3.v1EmaSlow
      c4vals3.v1EmaMicroFast c4vals3.v1EmaMicroSlow c4vals3.v1Rsi = true ∧
    peachV1LongLook c4cfg.v1 c4vals4.v1EmaFast c4vals4.v1EmaMid c4vals4.v1EmaSlow
      c4vals4.v1EmaMicroFast c4vals4.v1EmaMicroSlow c4vals4.v1Rsi = true ∧
    (c4e2.update (c4bar 90000 12)).2 = none ∧
    (c4e3.update (c4bar 120000 13)).2 = some ⟨.long, "v1-long"⟩ := by
  norm_num [c4vals3, c4vals4, c4e3, c4e2, c4e1, c4e0, c4cfg, c4bar,
    PeachHybridEngine.init, PeachHybridEngine.update, PeachHybridEngine.indicatorStep,
    PeachHybridEngine.checkV1System, PeachHybridEngine.v1Apply,
    PeachHybridEngine.checkV2System, peachV1LongLook, peachV1ShortLook,
    v1PriceMoveMet, jsGt, jsLt, jsOrQ, jsOrZ,
    EMA.init, EMA.update, RSI.init, RSI.update, RSI.value,
    ADX.init, ADX.update, ADX.base, ADX.diCalc, ADX.dxApply, ADX.diFinish,
    ATR.init, ATR.update, pushWindow, plusDMcalc, minusDMcalc, trueRange,
    max_def, abs_eq_max_neg]

end AsterBot

